import Mathlib

/-!
# Cubiomes kernel: random stream, noise, biome classifier, structure search

A shallow embedding of `src/wasm/cubiomes/src/cubiomes.c`.

Conventions of the embedding.

* `int` values are `Int`; where the C arithmetic can leave the 32-bit range the
  result goes through `wrap32` (two's complement wraparound, as on the
  WebAssembly target of the source).
* `unsigned long long` values are `Nat`, reduced `% 2^64` after each operation.
* `double` values are exact rationals.  Every double the program computes is
  `k / 2^53` for an integer `0 ≤ k < 2^53` (so no rounding takes place), and a
  double literal such as `0.3` is the rational value of its IEEE-754 binary64
  rounding.  Comparisons of doubles are then comparisons of rationals.
* A C string is the list of its bytes before the terminating NUL.
* The two process-wide globals `g_seed` and `g_version` are a `Session` value
  passed in and out of every entry point.
-/

namespace Cubiomes

/-! ## Machine arithmetic -/

/-- Two's complement reduction of an integer to the 32-bit signed range. -/
def wrap32 (i : Int) : Int := (i + 2147483648) % 4294967296 - 2147483648

/-- Reduction of an integer to the 64-bit unsigned range. -/
def wrapU64 (i : Int) : Nat := (i % 18446744073709551616).toNat

/-- A C string, as the list of its bytes (each `1..255`) before the NUL. -/
abbrev CStr := List Nat

/-- The bytes of an ASCII string literal. -/
def cstr (s : String) : CStr := s.toList.map Char.toNat

/-- The value of a `char` on the source's target, where `char` is signed. -/
def charValue (b : Nat) : Int := if b % 256 < 128 then (b % 256 : Nat) else ((b % 256 : Nat) : Int) - 256

/-! ## Biome and structure identifiers -/

def BIOME_PLAINS : Int := 1
def BIOME_DESERT : Int := 2
def BIOME_FOREST : Int := 3
def BIOME_MOUNTAINS : Int := 4
def BIOME_SWAMP : Int := 5
def BIOME_OCEAN : Int := 6
def BIOME_RIVER : Int := 7
def BIOME_TAIGA : Int := 8
def BIOME_BEACH : Int := 9
def BIOME_SAVANNA : Int := 10
def BIOME_JUNGLE : Int := 11
def BIOME_BADLANDS : Int := 12
def BIOME_DARK_FOREST : Int := 13
def BIOME_ICE_PLAINS : Int := 14
def BIOME_MUSHROOM_ISLAND : Int := 15

def STRUCTURE_VILLAGE : Int := 0
def STRUCTURE_TEMPLE : Int := 1
def STRUCTURE_STRONGHOLD : Int := 2
def STRUCTURE_MONUMENT : Int := 3
def STRUCTURE_MANSION : Int := 4
def STRUCTURE_MINESHAFT : Int := 5
def STRUCTURE_FORTRESS : Int := 6
def STRUCTURE_SPAWNER : Int := 7
def STRUCTURE_OUTPOST : Int := 8
def STRUCTURE_RUINED_PORTAL : Int := 9

/-- One entry of the result buffer (`typedef struct { ... } Structure`). -/
structure Structure where
  type : Int
  x : Int
  z : Int
  biome : Int
  distance : Int
deriving DecidableEq, Repr

/-- The two globals of the generator, `g_seed` and `g_version`. -/
structure Session where
  g_seed : Nat
  g_version : CStr
deriving DecidableEq, Repr

/-- The globals as the program starts: `g_seed = 0`, `g_version = "1.20"`. -/
def Session.initial : Session := ⟨0, cstr "1.20"⟩

/-! ## The random stream -/

/-- The state of a random stream (`typedef struct { unsigned long long seed; } JavaRandom`). -/
structure JavaRandom where
  seed : Nat
deriving DecidableEq, Repr

/-- Source `javarand_init`: `rand->seed = (seed ^ 0x5DEECE66DLL) & ((1LL << 48) - 1)`. -/
def javarand_init (seed : Nat) : JavaRandom :=
  ⟨(seed ^^^ 0x5DEECE66D) &&& ((1 <<< 48) - 1)⟩

/-- Source `javarand_next`: advances the state by the 64-bit wrapped recurrence
followed by the 48-bit mask and returns the shifted state converted to `int`.
The argument `bits` is between 0 and 48 at every call. -/
def javarand_next (rand : JavaRandom) (bits : Nat) : Int × JavaRandom :=
  let seed := ((rand.seed * 0x5DEECE66D + 0xB) % 18446744073709551616) &&& ((1 <<< 48) - 1)
  (wrap32 ((seed >>> (48 - bits) : Nat) : Int), ⟨seed⟩)

/-- The `do { ... } while (bits - val + (n - 1) < 0)` loop of `javarand_nextInt`,
with `fuel` bounding the number of iterations; `none` when the fuel runs out. -/
def javarand_nextInt_loop : Nat → JavaRandom → Int → Option (Int × JavaRandom)
  | 0, _, _ => none
  | fuel + 1, rand, n =>
    let draw := javarand_next rand 31
    let bits := draw.1
    let val := Int.tmod bits n
    if wrap32 (bits - val + (n - 1)) < 0 then javarand_nextInt_loop fuel draw.2 n
    else some (val, draw.2)

/-- Source `javarand_nextInt`: 0 for `n <= 0`, otherwise the rejection loop. -/
def javarand_nextInt (fuel : Nat) (rand : JavaRandom) (n : Int) : Option (Int × JavaRandom) :=
  if n ≤ 0 then some (0, rand) else javarand_nextInt_loop fuel rand n

/-- Source `javarand_nextDouble`:
`(((long long)next(26) << 27) + next(27)) / (double)(1LL << 53)`, the left operand
of `+` evaluated first.  The numerator is below `2^53`, so its conversion to
`double` and the division by `2^53` are exact. -/
def javarand_nextDouble (rand : JavaRandom) : ℚ × JavaRandom :=
  let hi := javarand_next rand 26
  let lo := javarand_next hi.2 27
  (((hi.1 * 134217728 + lo.1 : Int) : ℚ) / 9007199254740992, lo.2)

/-- Source `noise`: a fresh stream seeded with
`seed + x * 341873128712 + z * 132897987541` (64-bit wraparound), one `nextDouble`. -/
def noise (x z : Int) (seed : Nat) : ℚ :=
  (javarand_nextDouble
    (javarand_init (wrapU64 ((seed : Int) + x * 341873128712 + z * 132897987541)))).1

/-! ## Seed derivation -/

/-- Source `hash_seed`: `hash = 31 * hash + seed_str[i]` from 0, left to right,
in 64-bit unsigned arithmetic; `seed_str[i]` is a (signed) `char`. -/
def hash_seed (seed_str : CStr) : Nat :=
  seed_str.foldl (fun hash b => wrapU64 (31 * (hash : Int) + charValue b)) 0

/-- The C library's `isspace` in the "C" locale. -/
def isSpaceByte (b : Nat) : Bool := b == 32 || (9 ≤ b && b ≤ 13)

/-- The C library's `isdigit`. -/
def isDigitByte (b : Nat) : Bool := 48 ≤ b && b ≤ 57

/-- Accumulation of a run of decimal digits; the flag records that the value
left the 64-bit unsigned range. -/
def scanDigits : CStr → Nat → Bool → Nat × Bool
  | [], acc, ovf => (acc, ovf)
  | b :: rest, acc, ovf =>
    if isDigitByte b then
      let acc1 := acc * 10 + (b - 48)
      if acc1 < 18446744073709551616 then scanDigits rest acc1 ovf
      else scanDigits rest acc1 true
    else (acc, ovf)

/-- The C library's `sscanf(s, "%llu", &v)`: leading white space is skipped, an
optional sign is read, then at least one decimal digit is required (`none` is a
return value other than 1).  The digits are converted as by `strtoull`: a value
out of range gives `ULLONG_MAX`, a minus sign negates modulo `2^64`; what
follows the digits is left unread. -/
def sscanf_llu (s : CStr) : Option Nat :=
  let t := s.dropWhile isSpaceByte
  let neg := t.head? == some 45
  let u := if t.head? == some 45 || t.head? == some 43 then t.tail else t
  match u with
  | [] => none
  | b :: _ =>
    if isDigitByte b then
      let r := scanDigits u 0 false
      if r.2 then some 18446744073709551615
      else if neg then some ((18446744073709551616 - r.1) % 18446744073709551616)
      else some r.1
    else none

/-- Source `initGenerator`: both globals are overwritten.  The seed is the
scanned number when `sscanf` converts one, the hash of the text otherwise; the
version keeps its first 9 bytes. -/
def initGenerator (seed_str version : CStr) : Session :=
  { g_seed := match sscanf_llu seed_str with
      | some seed => seed
      | none => hash_seed seed_str
    g_version := version.take 9 }

/-! ## Biome classifier -/

/-- Binary64 value of the literal `0.1`. -/
def lit_0_1 : ℚ := 3602879701896397 / 36028797018963968
/-- Binary64 value of the literal `0.2`. -/
def lit_0_2 : ℚ := 3602879701896397 / 18014398509481984
/-- Binary64 value of the literal `0.3`. -/
def lit_0_3 : ℚ := 5404319552844595 / 18014398509481984
/-- Binary64 value of the literal `0.4`. -/
def lit_0_4 : ℚ := 3602879701896397 / 9007199254740992
/-- Binary64 value of the literal `0.5`. -/
def lit_0_5 : ℚ := 1 / 2
/-- Binary64 value of the literal `0.6`. -/
def lit_0_6 : ℚ := 5404319552844595 / 9007199254740992
/-- Binary64 value of the literal `0.7`. -/
def lit_0_7 : ℚ := 3152519739159347 / 4503599627370496

/-- Lines 140-166 of `getBiomeAt`: the decision tree on the four noise samples. -/
def biomeDecision (temperature humidity variation waterNoise : ℚ) : Int :=
  if waterNoise < lit_0_3 ∧ waterNoise < lit_0_1 then BIOME_OCEAN
  else if waterNoise < lit_0_3 ∧ variation > lit_0_7 then BIOME_RIVER
  else if temperature < lit_0_1 then BIOME_ICE_PLAINS
  else if temperature < lit_0_2 then
    (if humidity > lit_0_5 then BIOME_TAIGA else BIOME_ICE_PLAINS)
  else if temperature < lit_0_4 then
    (if humidity > lit_0_7 then BIOME_SWAMP
     else if humidity > lit_0_4 then BIOME_FOREST
     else BIOME_PLAINS)
  else if temperature < lit_0_7 then
    (if humidity < lit_0_2 then BIOME_DESERT
     else if humidity > lit_0_6 then BIOME_JUNGLE
     else if humidity > lit_0_4 then BIOME_FOREST
     else BIOME_PLAINS)
  else
    (if humidity < lit_0_3 then BIOME_BADLANDS
     else if humidity < lit_0_5 then BIOME_SAVANNA
     else BIOME_JUNGLE)

/-- The guard shared by both entry points:
`if (g_seed == 0 || strcmp(g_version, version) != 0) initGenerator(seed_str, version)`. -/
def ensureSession (st : Session) (seed_str version : CStr) : Session :=
  if st.g_seed = 0 ∨ st.g_version ≠ version then initGenerator seed_str version else st

/-- Lines 134-166 of `getBiomeAt` as a function of the value of `g_seed`: the
four noise samples at seed offsets 1 to 4 and the decision tree on them. -/
def biomeOfSeed (g_seed : Nat) (x z : Int) : Int :=
  let temperature := noise x z ((g_seed + 1) % 18446744073709551616)
  let humidity := noise x z ((g_seed + 2) % 18446744073709551616)
  let variation := noise x z ((g_seed + 3) % 18446744073709551616)
  let waterNoise := noise x z ((g_seed + 4) % 18446744073709551616)
  biomeDecision temperature humidity variation waterNoise

/-- Source `getBiomeAt`: the biome id returned and the globals after the call. -/
def getBiomeAt (st : Session) (seed_str : CStr) (x z : Int) (version : CStr) : Int × Session :=
  let st1 := ensureSession st seed_str version
  (biomeOfSeed st1.g_seed x z, st1)

/-! ## Structure eligibility -/

/-- Source `canStructureSpawnInBiome` (the `switch` written as a chain of tests). -/
def canStructureSpawnInBiome (structure_type biome : Int) : Bool :=
  if structure_type = STRUCTURE_VILLAGE then
    biome == BIOME_PLAINS || biome == BIOME_DESERT || biome == BIOME_SAVANNA
  else if structure_type = STRUCTURE_TEMPLE then
    biome == BIOME_DESERT || biome == BIOME_JUNGLE || biome == BIOME_ICE_PLAINS
  else if structure_type = STRUCTURE_STRONGHOLD then
    biome != BIOME_OCEAN && biome != BIOME_RIVER
  else if structure_type = STRUCTURE_MONUMENT then
    biome == BIOME_OCEAN
  else if structure_type = STRUCTURE_MANSION then
    biome == BIOME_DARK_FOREST
  else if structure_type = STRUCTURE_MINESHAFT then
    biome != BIOME_OCEAN
  else if structure_type = STRUCTURE_FORTRESS then
    true
  else if structure_type = STRUCTURE_SPAWNER then
    biome != BIOME_OCEAN && biome != BIOME_RIVER
  else if structure_type = STRUCTURE_OUTPOST then
    biome == BIOME_DESERT || biome == BIOME_PLAINS || biome == BIOME_TAIGA || biome == BIOME_SAVANNA
  else if structure_type = STRUCTURE_RUINED_PORTAL then
    true
  else
    false

/-! ## Structure search -/

/-- Lines 206-216 of `getStructuresNear`: the kind index of the filter text, or
`-1` when the text is none of the ten names. -/
def structureTypeOf (type_str : CStr) : Int :=
  if type_str = cstr "village" then STRUCTURE_VILLAGE
  else if type_str = cstr "temple" then STRUCTURE_TEMPLE
  else if type_str = cstr "stronghold" then STRUCTURE_STRONGHOLD
  else if type_str = cstr "monument" then STRUCTURE_MONUMENT
  else if type_str = cstr "mansion" then STRUCTURE_MANSION
  else if type_str = cstr "mineshaft" then STRUCTURE_MINESHAFT
  else if type_str = cstr "fortress" then STRUCTURE_FORTRESS
  else if type_str = cstr "spawner" then STRUCTURE_SPAWNER
  else if type_str = cstr "outpost" then STRUCTURE_OUTPOST
  else if type_str = cstr "ruined_portal" then STRUCTURE_RUINED_PORTAL
  else -1

/-- Lines 242-254 of `getStructuresNear`: the spawn probability of a kind, each
the binary64 value of the literal in the source (`0.05`, `0.03`, `0.008`, `0.01`,
`0.003`, `0.1`, `0.02`, `0.1`, `0.04`, `0.05`). -/
def spawnChance (type : Int) : ℚ :=
  if type = STRUCTURE_VILLAGE then 3602879701896397 / 72057594037927936
  else if type = STRUCTURE_TEMPLE then 1080863910568919 / 36028797018963968
  else if type = STRUCTURE_STRONGHOLD then 1152921504606847 / 144115188075855872
  else if type = STRUCTURE_MONUMENT then 5764607523034235 / 576460752303423488
  else if type = STRUCTURE_MANSION then 3458764513820541 / 1152921504606846976
  else if type = STRUCTURE_MINESHAFT then 3602879701896397 / 36028797018963968
  else if type = STRUCTURE_FORTRESS then 5764607523034235 / 288230376151711744
  else if type = STRUCTURE_SPAWNER then 3602879701896397 / 36028797018963968
  else if type = STRUCTURE_OUTPOST then 5764607523034235 / 144115188075855872
  else if type = STRUCTURE_RUINED_PORTAL then 3602879701896397 / 72057594037927936
  else 0

/-- The conversion `(int)sqrt(m)` of line 269 for an `int` m.  For
`0 ≤ m < 2^31` the correctly rounded double square root truncates to the
integer square root.  A negative `m` arises only when the `int` sum of squares
has overflowed; the square root is then a NaN, whose conversion to `int` C
leaves undefined.  The model takes `INT_MIN` there, the value the compiled
conversion stores for a NaN, so that such a site passes every radius test. -/
def intSqrt (m : Int) : Int :=
  if m < 0 then -2147483648 else (Nat.sqrt m.toNat : Nat)

/-- The values a `for (i = lo; i <= hi; i++)` loop runs through. -/
def intRange (lo hi : Int) : List Int :=
  (List.range (hi - lo + 1).toNat).map (fun (k : Nat) => lo + (k : Int))

/-- Lines 223-226 of `getStructuresNear`: `(startChunkX, startChunkZ, endChunkX,
endChunkZ)`, each a C division (rounding toward zero) by 16. -/
def chunkBounds (centerX centerZ radius : Int) : Int × Int × Int × Int :=
  (Int.tdiv (wrap32 (centerX - radius)) 16,
   Int.tdiv (wrap32 (centerZ - radius)) 16,
   Int.tdiv (wrap32 (centerX + radius)) 16,
   Int.tdiv (wrap32 (centerZ + radius)) 16)

/-- What the body of the kind loop reads and writes: the globals, the stream
of the current chunk, and the result buffer filled so far (`count` is its length). -/
structure SearchState where
  st : Session
  chunkRand : JavaRandom
  result : List Structure
deriving DecidableEq, Repr

/-- Lines 262-286 of `getStructuresNear`: with the two offsets drawn, the world
coordinates, the distance to the centre, the radius test, the biome lookup
(which goes through the guard of `getBiomeAt`) and the eligibility test; an
accepted structure is written at `result[count]`. -/
def placeStructure (seed_str version : CStr) (centerX centerZ radius : Int)
    (chunkX chunkZ : Int) (s : SearchState) (type offsetX offsetZ : Int) (rand2 : JavaRandom) :
    SearchState :=
  let worldX := wrap32 (chunkX * 16 + offsetX)
  let worldZ := wrap32 (chunkZ * 16 + offsetZ)
  let dx := wrap32 (worldX - centerX)
  let dz := wrap32 (worldZ - centerZ)
  let distance := intSqrt (wrap32 (dx * dx + dz * dz))
  if distance ≤ radius then
    let b := getBiomeAt s.st seed_str worldX worldZ version
    if canStructureSpawnInBiome type b.1 then
      ⟨b.2, rand2, s.result ++ [⟨type, worldX, worldZ, b.1, distance⟩]⟩
    else ⟨b.2, rand2, s.result⟩
  else ⟨s.st, rand2, s.result⟩

/-- Lines 237-287 of `getStructuresNear`: the body of the kind loop for one
`type` in chunk `(chunkX, chunkZ)`: the filter, the spawn roll, and on success
the two offset draws followed by `placeStructure`; `none` when a
`javarand_nextInt` call runs out of fuel. -/
def checkKind (fuel : Nat) (seed_str version : CStr) (centerX centerZ radius structure_type : Int)
    (chunkX chunkZ : Int) (s : SearchState) (type : Int) : Option SearchState :=
  if structure_type ≠ -1 ∧ type ≠ structure_type then some s
  else
    let roll := javarand_nextDouble s.chunkRand
    if roll.1 < spawnChance type then
      (javarand_nextInt fuel roll.2 16).bind fun offsetX =>
        (javarand_nextInt fuel offsetX.2 16).bind fun offsetZ =>
          some (placeStructure seed_str version centerX centerZ radius chunkX chunkZ s type
            offsetX.1 offsetZ.1 offsetZ.2)
    else some ⟨s.st, roll.2, s.result⟩

/-- Lines 231-288 of `getStructuresNear`: one chunk.  A fresh stream is seeded
from the current `g_seed` and the chunk coordinates, then the ten kinds are
checked in index order on that one stream. -/
def scanChunk (fuel : Nat) (seed_str version : CStr) (centerX centerZ radius structure_type : Int)
    (chunkZ : Int) (acc : Session × List Structure) (chunkX : Int) :
    Option (Session × List Structure) :=
  let chunkRand := javarand_init
    (wrapU64 ((acc.1.g_seed : Int) + chunkX * 341873128712 + chunkZ * 132897987541))
  ((intRange 0 9).foldlM
    (checkKind fuel seed_str version centerX centerZ radius structure_type chunkX chunkZ)
    ⟨acc.1, chunkRand, acc.2⟩).map (fun s => (s.st, s.result))

/-- Lines 230-289 of `getStructuresNear`: one row of chunks, `chunkX` from
`startChunkX` to `endChunkX`. -/
def scanRow (fuel : Nat) (seed_str version : CStr) (centerX centerZ radius structure_type : Int)
    (startChunkX endChunkX : Int) (acc : Session × List Structure) (chunkZ : Int) :
    Option (Session × List Structure) :=
  (intRange startChunkX endChunkX).foldlM
    (scanChunk fuel seed_str version centerX centerZ radius structure_type chunkZ) acc

/-- Source `getStructuresNear`: the entries written to the result buffer, in
the order written (the returned `count` is the length of the list), and the
globals after the call.  The unused local `chunkRadius` is left out. -/
def getStructuresNear (fuel : Nat) (st : Session) (seed_str : CStr) (centerX centerZ : Int)
    (type_str : CStr) (radius : Int) (version : CStr) : Option (List Structure × Session) :=
  let st1 := ensureSession st seed_str version
  let structure_type := structureTypeOf type_str
  let bounds := chunkBounds centerX centerZ radius
  ((intRange bounds.2.1 bounds.2.2.2).foldlM
    (scanRow fuel seed_str version centerX centerZ radius structure_type bounds.1 bounds.2.2.1)
    (st1, [])).map (fun acc => (acc.2, acc.1))

/-! ## Definitions used in the statements and proofs -/

/-- The decision table of the biome classifier, row by row, first match wins;
the thresholds are the binary64 literals of the program. -/
def biomeTable (temperature humidity variation water : ℚ) : Int :=
  if water < lit_0_1 then BIOME_OCEAN
  else if lit_0_1 ≤ water ∧ water < lit_0_3 ∧ variation > lit_0_7 then BIOME_RIVER
  else if temperature < lit_0_1 then BIOME_ICE_PLAINS
  else if temperature < lit_0_2 ∧ humidity > lit_0_5 then BIOME_TAIGA
  else if temperature < lit_0_2 then BIOME_ICE_PLAINS
  else if temperature < lit_0_4 ∧ humidity > lit_0_7 then BIOME_SWAMP
  else if temperature < lit_0_4 ∧ humidity > lit_0_4 then BIOME_FOREST
  else if temperature < lit_0_4 then BIOME_PLAINS
  else if temperature < lit_0_7 ∧ humidity < lit_0_2 then BIOME_DESERT
  else if temperature < lit_0_7 ∧ humidity > lit_0_6 then BIOME_JUNGLE
  else if temperature < lit_0_7 ∧ humidity > lit_0_4 then BIOME_FOREST
  else if temperature < lit_0_7 then BIOME_PLAINS
  else if humidity < lit_0_3 then BIOME_BADLANDS
  else if humidity < lit_0_5 then BIOME_SAVANNA
  else BIOME_JUNGLE

/-- The 48-bit linear congruential recurrence of the stream. -/
def lcgStep (s : Nat) : Nat := (s * 25214903917 + 11) % 281474976710656

/-- Composition of the affine map `s ↦ (p * s + q) % 2^48` with itself. -/
def affSquare (c : Nat × Nat) : Nat × Nat :=
  (c.1 * c.1 % 281474976710656, (c.1 * c.2 + c.2) % 281474976710656)


/-- The stream after `j` calls of `javarand_next(rand, 31)`. -/
def drawn (rand : JavaRandom) (j : Nat) : JavaRandom :=
  (fun r => (javarand_next r 31).2)^[j] rand


/-- Lexicographic order on the positions `(chunkZ, chunkX, type)` of the scan. -/
def scanBefore (a b : Int × Int × Int) : Prop :=
  a.1 < b.1 ∨ (a.1 = b.1 ∧ (a.2.1 < b.2.1 ∨ (a.2.1 = b.2.1 ∧ a.2.2 < b.2.2)))

/-- The record `p` is one that the kind loop writes at position
`pos = (chunkZ, chunkX, type)` of a scan over the chunk range `bounds`, under the
session seed `g_seed`: the position is inside the scan, the kind passes the
filter, and the fields are computed as in lines 259-283 of the source. -/
def WrittenAt (g_seed : Nat) (centerX centerZ radius structure_type : Int)
    (bounds : Int × Int × Int × Int) (pos : Int × Int × Int) (p : Structure) : Prop :=
  bounds.2.1 ≤ pos.1 ∧ pos.1 ≤ bounds.2.2.2 ∧ bounds.1 ≤ pos.2.1 ∧ pos.2.1 ≤ bounds.2.2.1 ∧
  0 ≤ pos.2.2 ∧ pos.2.2 ≤ 9 ∧ (structure_type = -1 ∨ pos.2.2 = structure_type) ∧
  p.type = pos.2.2 ∧
  (∃ offsetX offsetZ : Int, 0 ≤ offsetX ∧ offsetX < 16 ∧ 0 ≤ offsetZ ∧ offsetZ < 16 ∧
    p.x = wrap32 (pos.2.1 * 16 + offsetX) ∧ p.z = wrap32 (pos.1 * 16 + offsetZ)) ∧
  p.distance = intSqrt (wrap32 (wrap32 (p.x - centerX) * wrap32 (p.x - centerX)
      + wrap32 (p.z - centerZ) * wrap32 (p.z - centerZ))) ∧
  p.distance ≤ radius ∧
  p.biome = biomeOfSeed g_seed p.x p.z ∧
  canStructureSpawnInBiome p.type p.biome = true

/-- Invariant of the three nested loops at scan position `pos`: the globals
are the session `st1`, the records written so far come from pairwise increasing
positions, all before `pos`. -/
def ScanInv (W : Int × Int × Int → Structure → Prop) (st1 : Session) (pos : Int × Int × Int)
    (st : Session) (result : List Structure) : Prop :=
  st = st1 ∧
  result.Pairwise (fun p q => ∃ a b, W a p ∧ W b q ∧ scanBefore a b) ∧
  ∀ p ∈ result, ∃ a, W a p ∧ scanBefore a pos


/-- The ten kind names, by kind index. -/
def kindName (k : Fin 10) : String :=
  ["village", "temple", "stronghold", "monument", "mansion", "mineshaft", "fortress",
    "spawner", "outpost", "ruined_portal"].getD k.val ""

/-- The range of searches in which no `int` operation of `getStructuresNear`
overflows: `0 ≤ radius ≤ 32737` and both centre coordinates within
`±(2^31 - 32768)`. -/
def SearchInRange (centerX centerZ radius : Int) : Prop :=
  0 ≤ radius ∧ radius ≤ 32737 ∧
  -2147450880 ≤ centerX ∧ centerX ≤ 2147450880 ∧
  -2147450880 ≤ centerZ ∧ centerZ ≤ 2147450880

/-- The four sums of lines 223-226, `centerX - radius`, `centerX + radius`,
`centerZ - radius` and `centerZ + radius`, are computed without `int` overflow. -/
def ChunkSumsInRange (centerX centerZ radius : Int) : Prop :=
  (-2147483648 ≤ centerX - radius ∧ centerX - radius ≤ 2147483647) ∧
  (-2147483648 ≤ centerX + radius ∧ centerX + radius ≤ 2147483647) ∧
  (-2147483648 ≤ centerZ - radius ∧ centerZ - radius ≤ 2147483647) ∧
  (-2147483648 ≤ centerZ + radius ∧ centerZ + radius ≤ 2147483647)

instance (centerX centerZ radius : Int) : Decidable (ChunkSumsInRange centerX centerZ radius) := by
  unfold ChunkSumsInRange
  infer_instance


/-- The eleven biome ids the decision tree can return. -/
def reachableBiomes : List Int :=
  [BIOME_PLAINS, BIOME_DESERT, BIOME_FOREST, BIOME_SWAMP, BIOME_OCEAN, BIOME_RIVER, BIOME_TAIGA,
    BIOME_SAVANNA, BIOME_JUNGLE, BIOME_BADLANDS, BIOME_ICE_PLAINS]

/-- The polynomial `sum over i of c_i * 31^(n-1-i)` of a list of `n` integers. -/
def polySum : List Int → Int
  | [] => 0
  | c :: rest => c * 31 ^ rest.length + polySum rest

/-- The records `placeStructure` appends, as a function of the biome map of the
session: the record of lines 279-283 when the site is within the radius and the
kind is eligible on the site's biome, nothing otherwise. -/
def placedRecords (biome : Int → Int → Int) (centerX centerZ radius chunkX chunkZ : Int)
    (type offsetX offsetZ : Int) : List Structure :=
  if intSqrt (wrap32 (wrap32 (wrap32 (chunkX * 16 + offsetX) - centerX)
        * wrap32 (wrap32 (chunkX * 16 + offsetX) - centerX)
      + wrap32 (wrap32 (chunkZ * 16 + offsetZ) - centerZ)
        * wrap32 (wrap32 (chunkZ * 16 + offsetZ) - centerZ))) ≤ radius ∧
      canStructureSpawnInBiome type
        (biome (wrap32 (chunkX * 16 + offsetX)) (wrap32 (chunkZ * 16 + offsetZ))) = true then
    [⟨type, wrap32 (chunkX * 16 + offsetX), wrap32 (chunkZ * 16 + offsetZ),
      biome (wrap32 (chunkX * 16 + offsetX)) (wrap32 (chunkZ * 16 + offsetZ)),
      intSqrt (wrap32 (wrap32 (wrap32 (chunkX * 16 + offsetX) - centerX)
        * wrap32 (wrap32 (chunkX * 16 + offsetX) - centerX)
      + wrap32 (wrap32 (chunkZ * 16 + offsetZ) - centerZ)
        * wrap32 (wrap32 (chunkZ * 16 + offsetZ) - centerZ)))⟩]
  else []

/-- The effect of one kind check on the chunk stream and the records it
appends, as a function of the biome map of the session. -/
def kindStep (biome : Int → Int → Int) (centerX centerZ radius structure_type : Int)
    (chunkX chunkZ : Int) (rand : JavaRandom) (type : Int) : JavaRandom × List Structure :=
  if structure_type ≠ -1 ∧ type ≠ structure_type then (rand, [])
  else if (javarand_nextDouble rand).1 < spawnChance type then
    ((javarand_next (javarand_next (javarand_nextDouble rand).2 31).2 31).2,
      placedRecords biome centerX centerZ radius chunkX chunkZ type
        ((javarand_next (javarand_nextDouble rand).2 31).1 % 16)
        ((javarand_next (javarand_next (javarand_nextDouble rand).2 31).2 31).1 % 16))
  else ((javarand_nextDouble rand).2, [])

/-- The ten kind indices, in index order. -/
def allKinds : List Int := [0, 1, 2, 3, 4, 5, 6, 7, 8, 9]

/-- The check of one kind with no filter applied: the spawn roll on the chunk
stream and, on success, the two offsets and the record of the site when it is
within the radius and the kind is eligible there.  Returns the stream after the
check and the records written. -/
def kindCheck (biome : Int → Int → Int) (centerX centerZ radius : Int)
    (chunkX chunkZ : Int) (rand : JavaRandom) (type : Int) : JavaRandom × List Structure :=
  if (javarand_nextDouble rand).1 < spawnChance type then
    ((javarand_next (javarand_next (javarand_nextDouble rand).2 31).2 31).2,
      placedRecords biome centerX centerZ radius chunkX chunkZ type
        ((javarand_next (javarand_nextDouble rand).2 31).1 % 16)
        ((javarand_next (javarand_next (javarand_nextDouble rand).2 31).2 31).1 % 16))
  else ((javarand_nextDouble rand).2, [])

/-- The records written when the listed kinds are checked one after the other
on one stream, each kind on the stream the previous check left. -/
def checkKindsInOrder (check : JavaRandom → Int → JavaRandom × List Structure) :
    List Int → JavaRandom → List Structure
  | [], _ => []
  | type :: rest, rand => (check rand type).2 ++ checkKindsInOrder check rest (check rand type).1

/-- The search that checks all ten kinds, in index order, in every chunk of the
range, rows first: the records it writes under the session seed `g_seed`. -/
def searchAllKinds (g_seed : Nat) (centerX centerZ radius : Int) : List Structure :=
  (intRange (chunkBounds centerX centerZ radius).2.1
      (chunkBounds centerX centerZ radius).2.2.2).flatMap fun chunkZ =>
    (intRange (chunkBounds centerX centerZ radius).1
        (chunkBounds centerX centerZ radius).2.2.1).flatMap fun chunkX =>
      checkKindsInOrder (kindCheck (biomeOfSeed g_seed) centerX centerZ radius chunkX chunkZ)
        allKinds
        (javarand_init (wrapU64 ((g_seed : Int) + chunkX * 341873128712
          + chunkZ * 132897987541)))


/-! ## Machine arithmetic and the random stream -/

theorem wrap32_of_range (i : Int) (h0 : -2147483648 ≤ i) (h1 : i < 2147483648) : wrap32 i = i := by
  unfold wrap32; omega

theorem mask48_eq_mod (x : Nat) : x &&& ((1 <<< 48) - 1) = x % 281474976710656 := by
  have h : (1 <<< 48 : Nat) = 2 ^ 48 := by decide
  rw [h, Nat.and_pow_two_sub_one_eq_mod]

theorem javarand_next_seed (rand : JavaRandom) (bits : Nat) :
    (javarand_next rand bits).2.seed = lcgStep rand.seed := by
  simp only [javarand_next, lcgStep, mask48_eq_mod]
  omega

theorem lcgStep_lt (s : Nat) : lcgStep s < 281474976710656 := by
  unfold lcgStep; omega

theorem javarand_next_val (rand : JavaRandom) (bits : Nat) (hb : bits ≤ 31) :
    (javarand_next rand bits).1 = ((lcgStep rand.seed / 2 ^ (48 - bits) : Nat) : Int) ∧
      lcgStep rand.seed / 2 ^ (48 - bits) < 2 ^ bits := by
  have hs := javarand_next_seed rand bits
  have hlt := lcgStep_lt rand.seed
  have hq : lcgStep rand.seed / 2 ^ (48 - bits) < 2 ^ bits := by
    rw [Nat.div_lt_iff_lt_mul (Nat.pos_pow_of_pos _ (by decide))]
    rw [← Nat.pow_add]
    have : bits + (48 - bits) = 48 := by omega
    rw [this]; exact hlt
  refine ⟨?_, hq⟩
  have hle : (2:Nat) ^ bits ≤ 2 ^ 31 := Nat.pow_le_pow_right (by decide) hb
  have h31 : (2:Nat)^31 = 2147483648 := by decide
  show wrap32 _ = _
  simp only [javarand_next] at hs
  rw [hs, Nat.shiftRight_eq_div_pow]
  generalize lcgStep rand.seed / 2 ^ (48 - bits) = q at hq ⊢
  apply wrap32_of_range <;> omega

theorem javarand_next_bounds (rand : JavaRandom) (bits : Nat) (hb : bits ≤ 31) :
    0 ≤ (javarand_next rand bits).1 ∧ (javarand_next rand bits).1 < 2 ^ bits := by
  obtain ⟨h1, h2⟩ := javarand_next_val rand bits hb
  rw [h1]
  constructor
  · exact Int.natCast_nonneg _
  · exact_mod_cast h2

/-- Claim C10: `javarand_nextDouble` draws `a = Next(26)` and then, from the
stream that draw left, `b = Next(27)`; it returns `(a * 2^27 + b) / 2^53` and the
stream after the second draw, with `0 ≤ a < 2^26`, `0 ≤ b < 2^27`, and its value
is in `[0, 1)`. -/
theorem javarand_nextDouble_spec (rand : JavaRandom) :
    javarand_nextDouble rand
        = ((((javarand_next rand 26).1 * 2 ^ 27
              + (javarand_next (javarand_next rand 26).2 27).1 : Int) : ℚ) / 2 ^ 53,
           (javarand_next (javarand_next rand 26).2 27).2) ∧
      0 ≤ (javarand_next rand 26).1 ∧ (javarand_next rand 26).1 < 2 ^ 26 ∧
      0 ≤ (javarand_next (javarand_next rand 26).2 27).1 ∧
      (javarand_next (javarand_next rand 26).2 27).1 < 2 ^ 27 ∧
      0 ≤ (javarand_nextDouble rand).1 ∧ (javarand_nextDouble rand).1 < 1 := by
  obtain ⟨ha0, ha1⟩ := javarand_next_bounds rand 26 (by decide)
  obtain ⟨hb0, hb1⟩ := javarand_next_bounds (javarand_next rand 26).2 27 (by decide)
  have heq : javarand_nextDouble rand
        = ((((javarand_next rand 26).1 * 2 ^ 27
              + (javarand_next (javarand_next rand 26).2 27).1 : Int) : ℚ) / 2 ^ 53,
           (javarand_next (javarand_next rand 26).2 27).2) := by
    simp only [javarand_nextDouble]
    norm_num
  refine ⟨heq, ha0, ha1, hb0, hb1, ?_, ?_⟩
  · rw [heq]
    have hnum : (0:Int) ≤ (javarand_next rand 26).1 * 2 ^ 27
              + (javarand_next (javarand_next rand 26).2 27).1 :=
      Int.add_nonneg (Int.mul_nonneg ha0 (by norm_num)) hb0
    exact div_nonneg (by exact_mod_cast hnum) (by norm_num)
  · rw [heq]
    rw [div_lt_one (by norm_num)]
    have : (javarand_next rand 26).1 * 2 ^ 27
              + (javarand_next (javarand_next rand 26).2 27).1 < (2:Int) ^ 53 := by
      have : (javarand_next rand 26).1 ≤ 2 ^ 26 - 1 := by omega
      nlinarith
    exact_mod_cast this

theorem affSquare_apply (c : Nat × Nat) (s : Nat) :
    (c.1 * ((c.1 * s + c.2) % 281474976710656) + c.2) % 281474976710656
      = ((affSquare c).1 * s + (affSquare c).2) % 281474976710656 := by
  obtain ⟨p, q⟩ := c
  simp only [affSquare]
  have h1 : (p * ((p * s + q) % 281474976710656) + q) ≡ (p * (p * s + q) + q)
      [MOD 281474976710656] := ((Nat.mod_modEq _ _).mul_left p).add_right q
  have h2 : ((p * p % 281474976710656) * s + (p * q + q) % 281474976710656)
      ≡ (p * p * s + (p * q + q)) [MOD 281474976710656] :=
    ((Nat.mod_modEq _ _).mul_right s).add (Nat.mod_modEq _ _)
  have h3 : p * (p * s + q) + q = p * p * s + (p * q + q) := by ring
  rw [h3] at h1
  exact h1.trans h2.symm

theorem lcgStep_iterate_pow (j : Nat) (s : Nat) :
    lcgStep^[2 ^ j] s
      = ((affSquare^[j] (25214903917, 11)).1 * s + (affSquare^[j] (25214903917, 11)).2)
          % 281474976710656 := by
  induction j generalizing s with
  | zero => simp [lcgStep, Nat.mul_comm]
  | succ j ih =>
    have h2 : 2 ^ (j + 1) = 2 ^ j + 2 ^ j := by ring
    rw [h2, Function.iterate_add_apply, ih, ih, Function.iterate_succ_apply', affSquare_apply]

theorem affSquare_47 : affSquare^[47] (25214903917, 11) = (1, 140737488355328) := by
  decide

theorem lcgStep_half_period (s : Nat) :
    lcgStep^[140737488355328] s = (s + 140737488355328) % 281474976710656 := by
  have h := lcgStep_iterate_pow 47 s
  rw [affSquare_47] at h
  have h47 : (2:Nat) ^ 47 = 140737488355328 := by norm_num
  rw [h47] at h
  rw [h]; simp

theorem drawn_succ (rand : JavaRandom) (j : Nat) :
    drawn rand (j + 1) = drawn (javarand_next rand 31).2 j := by
  simp only [drawn, Function.iterate_succ_apply]

theorem drawn_succ_last (rand : JavaRandom) (j : Nat) :
    drawn rand (j + 1) = (javarand_next (drawn rand j) 31).2 := by
  simp only [drawn, Function.iterate_succ_apply']

theorem drawn_seed (rand : JavaRandom) (j : Nat) :
    (drawn rand j).seed = lcgStep^[j] rand.seed := by
  induction j with
  | zero => rfl
  | succ j ih =>
    rw [drawn_succ_last, javarand_next_seed, ih, Function.iterate_succ_apply']

theorem nextInt_loop_run (n : Int) (k : Nat) : ∀ (rand : JavaRandom) (fuel : Nat), k < fuel →
    (∀ j, j < k → wrap32 ((javarand_next (drawn rand j) 31).1
        - Int.tmod (javarand_next (drawn rand j) 31).1 n + (n - 1)) < 0) →
    ¬ wrap32 ((javarand_next (drawn rand k) 31).1
        - Int.tmod (javarand_next (drawn rand k) 31).1 n + (n - 1)) < 0 →
    javarand_nextInt_loop fuel rand n
      = some (Int.tmod (javarand_next (drawn rand k) 31).1 n, drawn rand (k + 1)) := by
  induction k with
  | zero =>
    intro rand fuel hf _ hacc
    obtain ⟨f, rfl⟩ : ∃ f, fuel = f + 1 := ⟨fuel - 1, by omega⟩
    have hacc' : ¬ wrap32 ((javarand_next rand 31).1
        - Int.tmod (javarand_next rand 31).1 n + (n - 1)) < 0 := hacc
    simp only [javarand_nextInt_loop, if_neg hacc']
    rfl
  | succ k ih =>
    intro rand fuel hf hrej hacc
    obtain ⟨f, rfl⟩ : ∃ f, fuel = f + 1 := ⟨fuel - 1, by omega⟩
    have h0 : wrap32 ((javarand_next rand 31).1
        - Int.tmod (javarand_next rand 31).1 n + (n - 1)) < 0 := hrej 0 (by omega)
    simp only [javarand_nextInt_loop, if_pos h0]
    rw [ih (javarand_next rand 31).2 f (by omega)]
    · rw [← drawn_succ, ← drawn_succ]
    · intro j hj
      rw [← drawn_succ]
      exact hrej (j + 1) (by omega)
    · rw [← drawn_succ]
      exact hacc

/-- A draw whose state is in the lower half of the 48-bit range is accepted. -/
theorem accept_of_small (rand : JavaRandom) (n : Int) (hn : 0 < n) (hmax : n ≤ 2147483647)
    (hs : lcgStep rand.seed < 140737488355328) :
    ¬ wrap32 ((javarand_next rand 31).1
        - Int.tmod (javarand_next rand 31).1 n + (n - 1)) < 0 := by
  obtain ⟨hv, _⟩ := javarand_next_val rand 31 (le_refl _)
  have hq : lcgStep rand.seed / 2 ^ (48 - 31) < 1073741824 := by
    have : (2:Nat) ^ (48 - 31) = 131072 := by norm_num
    rw [this]; omega
  rw [hv]
  generalize lcgStep rand.seed / 2 ^ (48 - 31) = q at hq
  have hq0 : (0:Int) ≤ (q:Int) := Int.natCast_nonneg q
  rw [Int.tmod_eq_emod hq0 (le_of_lt hn)]
  have hm0 : 0 ≤ (q:Int) % n := Int.emod_nonneg _ (ne_of_gt hn)
  have hm1 : (q:Int) % n < n := Int.emod_lt_of_pos _ hn
  have hm2 : (q:Int) % n ≤ q := by
    have h1 := Int.emod_add_ediv (q:Int) n
    have h2 : 0 ≤ n * ((q:Int) / n) := Int.mul_nonneg (le_of_lt hn) (Int.ediv_nonneg hq0 (le_of_lt hn))
    omega
  by_cases hnq : (q:Int) < n
  · rw [Int.emod_eq_of_lt hq0 hnq]
    unfold wrap32; omega
  · generalize (q:Int) % n = m at hm0 hm1 hm2 ⊢
    unfold wrap32; omega

/-- From every state some draw is accepted: the first one or the one half a period later. -/
theorem exists_accept (rand : JavaRandom) (n : Int) (hn : 0 < n) (hmax : n ≤ 2147483647) :
    ∃ k, ¬ wrap32 ((javarand_next (drawn rand k) 31).1
        - Int.tmod (javarand_next (drawn rand k) 31).1 n + (n - 1)) < 0 := by
  by_cases hs : lcgStep rand.seed < 140737488355328
  · exact ⟨0, accept_of_small rand n hn hmax hs⟩
  · refine ⟨140737488355328, accept_of_small _ n hn hmax ?_⟩
    rw [drawn_seed, ← Function.iterate_succ_apply' lcgStep, Function.iterate_succ_apply,
      lcgStep_half_period]
    have := lcgStep_lt rand.seed
    omega

/-- Claim C9: for `0 < n` (an `int`, so `n ≤ 2^31 - 1`) and every stream state,
`javarand_nextInt` returns with enough fuel: there is a number `k` of rejected
draws after which the draw `b = Next(31)` is accepted, the value returned is
`b mod n`, in `[0, n)`, the accepted draw has `b - b mod n + (n - 1)` inside the
32-bit signed range and each rejected draw has it outside. -/
theorem javarand_nextInt_spec (rand : JavaRandom) (n : Int) (hn : 0 < n) (hmax : n ≤ 2147483647) :
    ∃ (k : Nat) (b : Int) (rand1 : JavaRandom),
      (∀ fuel, k < fuel → javarand_nextInt fuel rand n = some (b % n, rand1)) ∧
      javarand_next (drawn rand k) 31 = (b, rand1) ∧
      0 ≤ b % n ∧ b % n < n ∧
      b - b % n + (n - 1) ≤ 2147483647 ∧
      ∀ j, j < k → 2147483647 < (javarand_next (drawn rand j) 31).1
        - (javarand_next (drawn rand j) 31).1 % n + (n - 1) := by
  classical
  have hex := exists_accept rand n hn hmax
  have hacc := Nat.find_spec hex
  have hmin : ∀ j, j < Nat.find hex → wrap32 ((javarand_next (drawn rand j) 31).1
        - Int.tmod (javarand_next (drawn rand j) 31).1 n + (n - 1)) < 0 := fun j hj =>
    not_not.mp (Nat.find_min hex hj)
  -- the retry test in terms of the 32-bit range
  have key : ∀ r : JavaRandom,
      Int.tmod (javarand_next r 31).1 n = (javarand_next r 31).1 % n ∧
      (wrap32 ((javarand_next r 31).1 - Int.tmod (javarand_next r 31).1 n + (n - 1)) < 0 ↔
        2147483647 < (javarand_next r 31).1 - (javarand_next r 31).1 % n + (n - 1)) := by
    intro r
    obtain ⟨hb0, hb1⟩ := javarand_next_bounds r 31 (le_refl _)
    have ht := Int.tmod_eq_emod hb0 (le_of_lt hn)
    refine ⟨ht, ?_⟩
    rw [ht]
    have hm0 : 0 ≤ (javarand_next r 31).1 % n := Int.emod_nonneg _ (ne_of_gt hn)
    have hm1 : (javarand_next r 31).1 % n < n := Int.emod_lt_of_pos _ hn
    have hm2 : (javarand_next r 31).1 % n ≤ (javarand_next r 31).1 := by
      have h1 := Int.emod_add_ediv (javarand_next r 31).1 n
      have h2 : 0 ≤ n * ((javarand_next r 31).1 / n) :=
        Int.mul_nonneg (le_of_lt hn) (Int.ediv_nonneg hb0 (le_of_lt hn))
      omega
    have hb1' : (javarand_next r 31).1 < 2147483648 := by
      have : (2:Int) ^ 31 = 2147483648 := by norm_num
      omega
    generalize (javarand_next r 31).1 % n = m at hm0 hm1 hm2 ⊢
    generalize (javarand_next r 31).1 = b at hb0 hb1' hm2 ⊢
    unfold wrap32; omega
  refine ⟨Nat.find hex, (javarand_next (drawn rand (Nat.find hex)) 31).1,
    (javarand_next (drawn rand (Nat.find hex)) 31).2, ?_, rfl, ?_, ?_, ?_, ?_⟩
  · intro fuel hf
    have hrun := nextInt_loop_run n (Nat.find hex) rand fuel hf hmin hacc
    rw [javarand_nextInt, if_neg (not_le.mpr hn), hrun, (key _).1, drawn_succ_last]
  · exact Int.emod_nonneg _ (ne_of_gt hn)
  · exact Int.emod_lt_of_pos _ hn
  · exact not_lt.mp (fun h => hacc (((key _).2).mpr h))
  · intro j hj
    exact ((key _).2).mp (hmin j hj)

/-- Witness of claim C9 at the stream seeded with 0 and `n = 5`. -/
theorem javarand_nextInt_spec_witness :
    (0 : Int) < 5 ∧ (5 : Int) ≤ 2147483647 ∧
    ∃ (k : Nat) (b : Int) (rand1 : JavaRandom),
      (∀ fuel, k < fuel → javarand_nextInt fuel (javarand_init 0) 5 = some (b % 5, rand1)) ∧
      javarand_next (drawn (javarand_init 0) k) 31 = (b, rand1) ∧
      0 ≤ b % 5 ∧ b % 5 < 5 ∧
      b - b % 5 + (5 - 1) ≤ 2147483647 ∧
      ∀ j, j < k → 2147483647 < (javarand_next (drawn (javarand_init 0) j) 31).1
        - (javarand_next (drawn (javarand_init 0) j) 31).1 % 5 + (5 - 1) :=
  ⟨by decide, by decide, javarand_nextInt_spec (javarand_init 0) 5 (by decide) (by decide)⟩

/-! ## Session and classifier -/

theorem ensureSession_idem (st : Session) (seed_str version : CStr) :
    ensureSession (ensureSession st seed_str version) seed_str version
      = ensureSession st seed_str version := by
  unfold ensureSession
  split_ifs <;> rfl

theorem getBiomeAt_fst (st : Session) (seed_str : CStr) (x z : Int) (version : CStr) :
    (getBiomeAt st seed_str x z version).1
      = biomeOfSeed (ensureSession st seed_str version).g_seed x z := rfl

theorem getBiomeAt_snd (st : Session) (seed_str : CStr) (x z : Int) (version : CStr) :
    (getBiomeAt st seed_str x z version).2 = ensureSession st seed_str version := rfl

/-- Claim C2: a second call of `getBiomeAt` with the same arguments, made in
the session the first call left, returns the same biome id (and leaves the same
session), whatever the session before the first call. -/
theorem getBiomeAt_twice (st : Session) (seed_str : CStr) (x z : Int) (version : CStr) :
    getBiomeAt (getBiomeAt st seed_str x z version).2 seed_str x z version
      = getBiomeAt st seed_str x z version := by
  simp only [getBiomeAt, ensureSession_idem]

theorem biomeDecision_eq_table (t h v w : ℚ) : biomeDecision t h v w = biomeTable t h v w := by
  have h13 : lit_0_1 < lit_0_3 := by norm_num [lit_0_1, lit_0_3]
  unfold biomeDecision biomeTable
  generalize lit_0_1 = c1 at *
  generalize lit_0_2 = c2 at *
  generalize lit_0_3 = c3 at *
  generalize lit_0_4 = c4 at *
  generalize lit_0_5 = c5 at *
  generalize lit_0_6 = c6 at *
  generalize lit_0_7 = c7 at *
  by_cases hw1 : w < c1
  · have hw3 : w < c3 := lt_trans hw1 h13
    rw [if_pos ⟨hw3, hw1⟩, if_pos hw1]
  · have hw1' : c1 ≤ w := not_lt.mp hw1
    rw [if_neg (fun hc => hw1 hc.2), if_neg hw1]
    simp only [hw1', true_and]
    by_cases hr : w < c3 ∧ v > c7
    · rw [if_pos hr, if_pos hr]
    · rw [if_neg hr, if_neg hr]
      by_cases h1 : t < c1
      · rw [if_pos h1, if_pos h1]
      · rw [if_neg h1, if_neg h1]
        by_cases h2 : t < c2
        · simp only [h2, true_and, if_true]
        · simp only [h2, false_and, if_false]
          by_cases h4 : t < c4
          · simp only [h4, true_and, if_true]
          · simp only [h4, false_and, if_false]
            by_cases h7 : t < c7
            · simp only [h7, true_and, if_true]
            · simp only [h7, false_and, if_false]

/-- Claim C6: `canStructureSpawnInBiome` is the fixed eligibility table, kind by
kind, for every integer biome, and is false for every kind outside 0..9. -/
theorem canStructureSpawnInBiome_table (biome : Int) :
    (canStructureSpawnInBiome STRUCTURE_VILLAGE biome = true ↔
      biome = BIOME_PLAINS ∨ biome = BIOME_DESERT ∨ biome = BIOME_SAVANNA) ∧
    (canStructureSpawnInBiome STRUCTURE_TEMPLE biome = true ↔
      biome = BIOME_DESERT ∨ biome = BIOME_JUNGLE ∨ biome = BIOME_ICE_PLAINS) ∧
    (canStructureSpawnInBiome STRUCTURE_STRONGHOLD biome = true ↔
      biome ≠ BIOME_OCEAN ∧ biome ≠ BIOME_RIVER) ∧
    (canStructureSpawnInBiome STRUCTURE_MONUMENT biome = true ↔ biome = BIOME_OCEAN) ∧
    (canStructureSpawnInBiome STRUCTURE_MANSION biome = true ↔ biome = BIOME_DARK_FOREST) ∧
    (canStructureSpawnInBiome STRUCTURE_MINESHAFT biome = true ↔ biome ≠ BIOME_OCEAN) ∧
    canStructureSpawnInBiome STRUCTURE_FORTRESS biome = true ∧
    (canStructureSpawnInBiome STRUCTURE_SPAWNER biome = true ↔
      biome ≠ BIOME_OCEAN ∧ biome ≠ BIOME_RIVER) ∧
    (canStructureSpawnInBiome STRUCTURE_OUTPOST biome = true ↔
      biome = BIOME_DESERT ∨ biome = BIOME_PLAINS ∨ biome = BIOME_TAIGA ∨ biome = BIOME_SAVANNA) ∧
    canStructureSpawnInBiome STRUCTURE_RUINED_PORTAL biome = true ∧
    (∀ kind : Int, (0 ≤ kind ∧ kind ≤ 9) ∨ canStructureSpawnInBiome kind biome = false) := by
  refine ⟨?_, ?_, ?_, ?_, ?_, ?_, ?_, ?_, ?_, ?_, ?_⟩
  · simp [canStructureSpawnInBiome, STRUCTURE_VILLAGE, or_assoc]
  · simp [canStructureSpawnInBiome, STRUCTURE_VILLAGE, STRUCTURE_TEMPLE, or_assoc]
  · simp [canStructureSpawnInBiome, STRUCTURE_VILLAGE, STRUCTURE_TEMPLE, STRUCTURE_STRONGHOLD]
  · simp [canStructureSpawnInBiome, STRUCTURE_VILLAGE, STRUCTURE_TEMPLE, STRUCTURE_STRONGHOLD,
      STRUCTURE_MONUMENT]
  · simp [canStructureSpawnInBiome, STRUCTURE_VILLAGE, STRUCTURE_TEMPLE, STRUCTURE_STRONGHOLD,
      STRUCTURE_MONUMENT, STRUCTURE_MANSION]
  · simp [canStructureSpawnInBiome, STRUCTURE_VILLAGE, STRUCTURE_TEMPLE, STRUCTURE_STRONGHOLD,
      STRUCTURE_MONUMENT, STRUCTURE_MANSION, STRUCTURE_MINESHAFT]
  · simp [canStructureSpawnInBiome, STRUCTURE_VILLAGE, STRUCTURE_TEMPLE, STRUCTURE_STRONGHOLD,
      STRUCTURE_MONUMENT, STRUCTURE_MANSION, STRUCTURE_MINESHAFT, STRUCTURE_FORTRESS]
  · simp [canStructureSpawnInBiome, STRUCTURE_VILLAGE, STRUCTURE_TEMPLE, STRUCTURE_STRONGHOLD,
      STRUCTURE_MONUMENT, STRUCTURE_MANSION, STRUCTURE_MINESHAFT, STRUCTURE_FORTRESS,
      STRUCTURE_SPAWNER]
  · simp [canStructureSpawnInBiome, STRUCTURE_VILLAGE, STRUCTURE_TEMPLE, STRUCTURE_STRONGHOLD,
      STRUCTURE_MONUMENT, STRUCTURE_MANSION, STRUCTURE_MINESHAFT, STRUCTURE_FORTRESS,
      STRUCTURE_SPAWNER, STRUCTURE_OUTPOST, or_assoc]
  · simp [canStructureSpawnInBiome, STRUCTURE_VILLAGE, STRUCTURE_TEMPLE, STRUCTURE_STRONGHOLD,
      STRUCTURE_MONUMENT, STRUCTURE_MANSION, STRUCTURE_MINESHAFT, STRUCTURE_FORTRESS,
      STRUCTURE_SPAWNER, STRUCTURE_OUTPOST, STRUCTURE_RUINED_PORTAL]
  · intro kind
    by_cases hk : 0 ≤ kind ∧ kind ≤ 9
    · exact Or.inl hk
    · right
      have h0 : kind ≠ 0 := by omega
      have h1 : kind ≠ 1 := by omega
      have h2 : kind ≠ 2 := by omega
      have h3 : kind ≠ 3 := by omega
      have h4 : kind ≠ 4 := by omega
      have h5 : kind ≠ 5 := by omega
      have h6 : kind ≠ 6 := by omega
      have h7 : kind ≠ 7 := by omega
      have h8 : kind ≠ 8 := by omega
      have h9 : kind ≠ 9 := by omega
      simp [canStructureSpawnInBiome, STRUCTURE_VILLAGE, STRUCTURE_TEMPLE,
        STRUCTURE_STRONGHOLD, STRUCTURE_MONUMENT, STRUCTURE_MANSION, STRUCTURE_MINESHAFT,
        STRUCTURE_FORTRESS, STRUCTURE_SPAWNER, STRUCTURE_OUTPOST, STRUCTURE_RUINED_PORTAL,
        h0, h1, h2, h3, h4, h5, h6, h7, h8, h9]

/-- Claim C3: the decision tree of `getBiomeAt` is the first-match decision
table `biomeTable` on every quadruple of noise values, and the biome returned
by `getBiomeAt` is the table's entry for the four noise samples at seed offsets
1 to 4 of the session seed. -/
theorem getBiomeAt_decision_table :
    (∀ t h v w : ℚ, biomeDecision t h v w = biomeTable t h v w) ∧
    (∀ (st : Session) (seed_str : CStr) (x z : Int) (version : CStr),
      (getBiomeAt st seed_str x z version).1
        = biomeTable
            (noise x z (((ensureSession st seed_str version).g_seed + 1) % 18446744073709551616))
            (noise x z (((ensureSession st seed_str version).g_seed + 2) % 18446744073709551616))
            (noise x z (((ensureSession st seed_str version).g_seed + 3) % 18446744073709551616))
            (noise x z (((ensureSession st seed_str version).g_seed + 4) % 18446744073709551616))) := by
  refine ⟨biomeDecision_eq_table, fun st seed_str x z version => ?_⟩
  rw [← biomeDecision_eq_table]
  rfl

/-- The seed `getBiomeAt` classifies with: the one derived from the seed text
when the guard fires (`g_seed` is 0 or the version differs from `g_version`),
the session seed already present otherwise. -/
theorem getBiomeAt_seed_rule (st : Session) (seed_str : CStr) (x z : Int) (version : CStr) :
    (getBiomeAt st seed_str x z version).1
      = biomeOfSeed (if st.g_seed = 0 ∨ st.g_version ≠ version
          then (initGenerator seed_str version).g_seed else st.g_seed) x z := by
  rw [getBiomeAt_fst]
  unfold ensureSession
  split_ifs <;> rfl

/-- The thresholds are binary64 values, not exact decimals: the literals `0.7`
and `0.4` are multiples of `2^-53` just below `7/10` and just above `4/10`, and
a temperature equal to the literal `0.7`, or a humidity equal to the literal
`0.4`, is classified by the tests `< 0.7` and `> 0.4` as not below, not above. -/
theorem biomeDecision_at_literals :
    lit_0_7 = 6305039478318694 / 9007199254740992 ∧ lit_0_7 < 7 / 10 ∧
    biomeDecision lit_0_7 0 0 (1 / 2) = BIOME_BADLANDS ∧
    lit_0_4 = 3602879701896397 / 9007199254740992 ∧ 4 / 10 < lit_0_4 ∧
    biomeDecision (3 / 10) lit_0_4 0 (1 / 2) = BIOME_PLAINS := by
  decide!

/-- Claim C1, evaluated: the first call `getBiomeAt("12345", 0, 0, "1.20")` of
a process leaves the session seed 12345; the next call with seed text "999" and
the same version keeps that seed and returns plains, the biome of seed 12345 at
(0, 0), while the seed derived from "999" is 999 and its biome there is jungle. -/
theorem getBiomeAt_stale_seed :
    (getBiomeAt Session.initial (cstr "12345") 0 0 (cstr "1.20")).2 = ⟨12345, cstr "1.20"⟩ ∧
    getBiomeAt ⟨12345, cstr "1.20"⟩ (cstr "999") 0 0 (cstr "1.20")
      = (BIOME_PLAINS, ⟨12345, cstr "1.20"⟩) ∧
    biomeOfSeed 12345 0 0 = BIOME_PLAINS ∧
    (initGenerator (cstr "999") (cstr "1.20")).g_seed = 999 ∧
    biomeOfSeed 999 0 0 = BIOME_JUNGLE := by
  decide!

/-- Claim C8, evaluated: for the centre (-20, -20) and radius 3 the chunk range
computed is -1..-1 on both axes, while the floor of (-20 - 3) / 16 and of
(-20 + 3) / 16 is -2: the one chunk that contains the search square is left out. -/
theorem chunkBounds_truncates :
    chunkBounds (-20) (-20) 3 = (-1, -1, -1, -1) ∧
    (-20 - 3 : Int) / 16 = -2 ∧ (-20 + 3 : Int) / 16 = -2 := by
  decide

/-! ## Loops of the structure search -/

/-- Rule for a `for (i = lo; i <= hi; i++)` loop in the `Option` monad: an
invariant indexed by the loop variable that every iteration carries forward
holds at the exit, and the loop returns. -/
theorem foldlM_range_inv {σ : Type} (step : σ → Int → Option σ) (Inv : Int → σ → Prop)
    (lo : Int) (n : Nat) : ∀ (s : σ), Inv lo s →
    (∀ i s, lo ≤ i → i < lo + n → Inv i s → ∃ s1, step s i = some s1 ∧ Inv (i + 1) s1) →
    ∃ s1, ((List.range n).map (fun k : Nat => lo + (k : Int))).foldlM step s = some s1
      ∧ Inv (lo + n) s1 := by
  induction n with
  | zero =>
    intro s h0 _
    exact ⟨s, rfl, by simpa using h0⟩
  | succ n ih =>
    intro s h0 hstep
    obtain ⟨s1, hs1, hinv1⟩ := ih s h0 (fun i s hi1 hi2 hI => hstep i s hi1 (by push_cast; omega) hI)
    obtain ⟨s2, hs2, hinv2⟩ := hstep (lo + n) s1 (by omega) (by push_cast; omega) hinv1
    refine ⟨s2, ?_, ?_⟩
    · rw [List.range_succ, List.map_append, List.foldlM_append, hs1]
      simpa using hs2
    · have : lo + ((n + 1 : Nat) : Int) = lo + n + 1 := by push_cast; ring
      rw [this]; exact hinv2

theorem foldlM_intRange_inv {σ : Type} (step : σ → Int → Option σ) (Inv : Int → σ → Prop)
    (lo hi : Int) (s : σ) (h0 : Inv lo s)
    (hstep : ∀ i s, lo ≤ i → i ≤ hi → Inv i s → ∃ s1, step s i = some s1 ∧ Inv (i + 1) s1) :
    ∃ s1, (intRange lo hi).foldlM step s = some s1 ∧ Inv (max lo (hi + 1)) s1 := by
  obtain ⟨s1, h1, h2⟩ := foldlM_range_inv step Inv lo (hi - lo + 1).toNat s h0
    (fun i s hi1 hi2 hI => hstep i s hi1 (by omega) hI)
  refine ⟨s1, by unfold intRange; exact h1, ?_⟩
  have : lo + (((hi - lo + 1).toNat : Nat) : Int) = max lo (hi + 1) := by omega
  rw [← this]; exact h2

/-- With `n = 16` the rejection loop never retries. -/
theorem javarand_nextInt_16 (fuel : Nat) (rand : JavaRandom) :
    javarand_nextInt (fuel + 1) rand 16
      = some ((javarand_next rand 31).1 % 16, (javarand_next rand 31).2) := by
  obtain ⟨hb0, hb1⟩ := javarand_next_bounds rand 31 (le_refl _)
  have hb1' : (javarand_next rand 31).1 < 2147483648 := by
    have : (2:Int) ^ 31 = 2147483648 := by norm_num
    omega
  have ht : Int.tmod (javarand_next rand 31).1 16 = (javarand_next rand 31).1 % 16 :=
    Int.tmod_eq_emod hb0 (by decide)
  have hacc : ¬ wrap32 ((javarand_next rand 31).1
      - (javarand_next rand 31).1 % 16 + 15) < 0 := by
    unfold wrap32; omega
  simp [javarand_nextInt, javarand_nextInt_loop, ht, hacc]


theorem ScanInv_mono {W : Int × Int × Int → Structure → Prop} {st1 st : Session}
    {pos pos1 : Int × Int × Int} {result : List Structure}
    (h : ScanInv W st1 pos st result) (hpos : ∀ a, scanBefore a pos → scanBefore a pos1) :
    ScanInv W st1 pos1 st result := by
  obtain ⟨h1, h2, h3⟩ := h
  refine ⟨h1, h2, fun p hp => ?_⟩
  obtain ⟨a, ha, hb⟩ := h3 p hp
  exact ⟨a, ha, hpos a hb⟩

theorem ScanInv_append {W : Int × Int × Int → Structure → Prop} {st1 st : Session}
    {pos pos1 : Int × Int × Int} {result : List Structure} {p : Structure}
    (h : ScanInv W st1 pos st result) (hp : W pos p) (hlt : scanBefore pos pos1)
    (hpos : ∀ a, scanBefore a pos → scanBefore a pos1) :
    ScanInv W st1 pos1 st (result ++ [p]) := by
  obtain ⟨h1, h2, h3⟩ := h
  refine ⟨h1, ?_, ?_⟩
  · rw [List.pairwise_append]
    refine ⟨h2, List.pairwise_singleton _ _, ?_⟩
    intro q hq r hr
    rw [List.mem_singleton] at hr
    subst hr
    obtain ⟨a, ha, hb⟩ := h3 q hq
    exact ⟨a, pos, ha, hp, hb⟩
  · intro q hq
    rw [List.mem_append, List.mem_singleton] at hq
    rcases hq with hq | hq
    · obtain ⟨a, ha, hb⟩ := h3 q hq
      exact ⟨a, ha, hpos a hb⟩
    · subst hq
      exact ⟨pos, hp, hlt⟩


/-- The placement step in a session that the guard of `getBiomeAt` leaves
unchanged keeps the globals and writes at most one record, one written at this
position. -/
theorem placeStructure_cases (seed_str version : CStr)
    (centerX centerZ radius structure_type : Int) (bounds : Int × Int × Int × Int)
    (chunkX chunkZ : Int) (s : SearchState) (type offsetX offsetZ : Int) (rand2 : JavaRandom)
    (hstable : ensureSession s.st seed_str version = s.st)
    (hz1 : bounds.2.1 ≤ chunkZ) (hz2 : chunkZ ≤ bounds.2.2.2)
    (hx1 : bounds.1 ≤ chunkX) (hx2 : chunkX ≤ bounds.2.2.1)
    (ht1 : 0 ≤ type) (ht2 : type ≤ 9) (hf : structure_type = -1 ∨ type = structure_type)
    (hox0 : 0 ≤ offsetX) (hox1 : offsetX < 16) (hoz0 : 0 ≤ offsetZ) (hoz1 : offsetZ < 16) :
    (placeStructure seed_str version centerX centerZ radius chunkX chunkZ s type
        offsetX offsetZ rand2).st = s.st ∧
    ((placeStructure seed_str version centerX centerZ radius chunkX chunkZ s type
        offsetX offsetZ rand2).result = s.result ∨
     ∃ p, (placeStructure seed_str version centerX centerZ radius chunkX chunkZ s type
        offsetX offsetZ rand2).result = s.result ++ [p] ∧
        WrittenAt s.st.g_seed centerX centerZ radius structure_type bounds
          (chunkZ, chunkX, type) p) := by
  have hb2 : ∀ x z, (getBiomeAt s.st seed_str x z version).2 = s.st := fun x z => by
    rw [getBiomeAt_snd, hstable]
  have hb1 : ∀ x z, (getBiomeAt s.st seed_str x z version).1 = biomeOfSeed s.st.g_seed x z :=
    fun x z => by rw [getBiomeAt_fst, hstable]
  unfold placeStructure
  simp only [hb1, hb2]
  split_ifs with hdist hspawn
  · refine ⟨rfl, Or.inr ⟨_, rfl, ?_⟩⟩
    exact ⟨hz1, hz2, hx1, hx2, ht1, ht2, hf, rfl, ⟨offsetX, offsetZ, hox0, hox1, hoz0, hoz1,
      rfl, rfl⟩, rfl, hdist, rfl, hspawn⟩
  · exact ⟨rfl, Or.inl rfl⟩
  · exact ⟨rfl, Or.inl rfl⟩

/-- One pass through the body of the kind loop, in a session that the guard
of `getBiomeAt` leaves unchanged: it returns, keeps the globals, and writes at
most one record, which is one written at this position. -/
theorem checkKind_cases (fuel : Nat) (seed_str version : CStr)
    (centerX centerZ radius structure_type : Int) (bounds : Int × Int × Int × Int)
    (chunkX chunkZ : Int) (s : SearchState) (type : Int)
    (hstable : ensureSession s.st seed_str version = s.st)
    (hz1 : bounds.2.1 ≤ chunkZ) (hz2 : chunkZ ≤ bounds.2.2.2)
    (hx1 : bounds.1 ≤ chunkX) (hx2 : chunkX ≤ bounds.2.2.1)
    (ht1 : 0 ≤ type) (ht2 : type ≤ 9) :
    ∃ s1, checkKind (fuel + 1) seed_str version centerX centerZ radius structure_type
        chunkX chunkZ s type = some s1 ∧ s1.st = s.st ∧
      (s1.result = s.result ∨ ∃ p, s1.result = s.result ++ [p] ∧
        WrittenAt s.st.g_seed centerX centerZ radius structure_type bounds
          (chunkZ, chunkX, type) p) := by
  by_cases hfilter : structure_type ≠ -1 ∧ type ≠ structure_type
  · refine ⟨s, ?_, rfl, Or.inl rfl⟩
    unfold checkKind
    rw [if_pos hfilter]
  · have hf : structure_type = -1 ∨ type = structure_type := by
      by_cases h1 : structure_type = -1
      · exact Or.inl h1
      · by_cases h2 : type = structure_type
        · exact Or.inr h2
        · exact absurd ⟨h1, h2⟩ hfilter
    unfold checkKind
    rw [if_neg hfilter]
    generalize javarand_nextDouble s.chunkRand = roll
    generalize spawnChance type = chance
    by_cases hroll : roll.1 < chance
    · have hp := placeStructure_cases seed_str version centerX centerZ radius structure_type
        bounds chunkX chunkZ s type
        ((javarand_next roll.2 31).1 % 16)
        ((javarand_next (javarand_next roll.2 31).2 31).1 % 16)
        (javarand_next (javarand_next roll.2 31).2 31).2
        hstable hz1 hz2 hx1 hx2 ht1 ht2 hf
        (Int.emod_nonneg _ (by decide)) (Int.emod_lt_of_pos _ (by decide))
        (Int.emod_nonneg _ (by decide)) (Int.emod_lt_of_pos _ (by decide))
      refine ⟨_, ?_, hp.1, hp.2⟩
      rw [if_pos hroll, javarand_nextInt_16, Option.some_bind, javarand_nextInt_16,
        Option.some_bind]
    · refine ⟨⟨s.st, roll.2, s.result⟩, ?_, rfl, Or.inl rfl⟩
      rw [if_neg hroll]

theorem scanBefore_next_kind (a : Int × Int × Int) (cz cx t : Int)
    (h : scanBefore a (cz, cx, t)) : scanBefore a (cz, cx, t + 1) := by
  simp only [scanBefore] at h ⊢
  omega

theorem scanBefore_next_chunk (a : Int × Int × Int) (cz cx t : Int)
    (h : scanBefore a (cz, cx, t)) : scanBefore a (cz, cx + 1, 0) := by
  simp only [scanBefore] at h ⊢
  omega

theorem scanBefore_next_row (a : Int × Int × Int) (cz cx cx1 t : Int)
    (h : scanBefore a (cz, cx, t)) : scanBefore a (cz + 1, cx1, 0) := by
  simp only [scanBefore] at h ⊢
  omega

/-- The kind loop step carries the scan invariant from kind `type` to `type + 1`. -/
theorem checkKind_inv (fuel : Nat) (seed_str version : CStr)
    (centerX centerZ radius structure_type : Int) (bounds : Int × Int × Int × Int)
    (st1 : Session) (hstable : ensureSession st1 seed_str version = st1)
    (chunkX chunkZ : Int)
    (hz1 : bounds.2.1 ≤ chunkZ) (hz2 : chunkZ ≤ bounds.2.2.2)
    (hx1 : bounds.1 ≤ chunkX) (hx2 : chunkX ≤ bounds.2.2.1)
    (type : Int) (s : SearchState) (ht1 : 0 ≤ type) (ht2 : type ≤ 9)
    (hinv : ScanInv (WrittenAt st1.g_seed centerX centerZ radius structure_type bounds) st1
      (chunkZ, chunkX, type) s.st s.result) :
    ∃ s1, checkKind (fuel + 1) seed_str version centerX centerZ radius structure_type
        chunkX chunkZ s type = some s1 ∧
      ScanInv (WrittenAt st1.g_seed centerX centerZ radius structure_type bounds) st1
        (chunkZ, chunkX, type + 1) s1.st s1.result := by
  have hst : s.st = st1 := hinv.1
  obtain ⟨s1, h1, h2, h3⟩ := checkKind_cases fuel seed_str version centerX centerZ radius
    structure_type bounds chunkX chunkZ s type (by rw [hst]; exact hstable) hz1 hz2 hx1 hx2 ht1 ht2
  refine ⟨s1, h1, ?_⟩
  rw [h2]
  rcases h3 with h3 | ⟨p, h3, hp⟩
  · rw [h3]
    exact ScanInv_mono hinv (fun a ha => scanBefore_next_kind a _ _ _ ha)
  · rw [h3]
    rw [hst] at hp
    refine ScanInv_append hinv hp ?_ (fun a ha => scanBefore_next_kind a _ _ _ ha)
    exact Or.inr ⟨rfl, Or.inr ⟨rfl, Int.lt_succ type⟩⟩

/-- One chunk carries the scan invariant from chunk column `chunkX` to `chunkX + 1`. -/
theorem scanChunk_inv (fuel : Nat) (seed_str version : CStr)
    (centerX centerZ radius structure_type : Int) (bounds : Int × Int × Int × Int)
    (st1 : Session) (hstable : ensureSession st1 seed_str version = st1)
    (chunkZ : Int) (hz1 : bounds.2.1 ≤ chunkZ) (hz2 : chunkZ ≤ bounds.2.2.2)
    (chunkX : Int) (acc : Session × List Structure)
    (hx1 : bounds.1 ≤ chunkX) (hx2 : chunkX ≤ bounds.2.2.1)
    (hinv : ScanInv (WrittenAt st1.g_seed centerX centerZ radius structure_type bounds) st1
      (chunkZ, chunkX, 0) acc.1 acc.2) :
    ∃ acc1, scanChunk (fuel + 1) seed_str version centerX centerZ radius structure_type
        chunkZ acc chunkX = some acc1 ∧
      ScanInv (WrittenAt st1.g_seed centerX centerZ radius structure_type bounds) st1
        (chunkZ, chunkX + 1, 0) acc1.1 acc1.2 := by
  obtain ⟨s1, h1, h2⟩ := foldlM_intRange_inv
    (checkKind (fuel + 1) seed_str version centerX centerZ radius structure_type chunkX chunkZ)
    (fun t s => ScanInv (WrittenAt st1.g_seed centerX centerZ radius structure_type bounds) st1
      (chunkZ, chunkX, t) s.st s.result)
    0 9
    ⟨acc.1, javarand_init
      (wrapU64 ((acc.1.g_seed : Int) + chunkX * 341873128712 + chunkZ * 132897987541)), acc.2⟩
    hinv
    (fun t s ht1 ht2 hI => checkKind_inv fuel seed_str version centerX centerZ radius
      structure_type bounds st1 hstable chunkX chunkZ hz1 hz2 hx1 hx2 t s ht1 ht2 hI)
  refine ⟨(s1.st, s1.result), ?_, ?_⟩
  · unfold scanChunk
    show Option.map _ (List.foldlM _ _ _) = _
    rw [h1]
    rfl
  · exact ScanInv_mono h2 (fun a ha => scanBefore_next_chunk a _ _ _ ha)

/-- One row carries the scan invariant from chunk row `chunkZ` to `chunkZ + 1`. -/
theorem scanRow_inv (fuel : Nat) (seed_str version : CStr)
    (centerX centerZ radius structure_type : Int) (bounds : Int × Int × Int × Int)
    (st1 : Session) (hstable : ensureSession st1 seed_str version = st1)
    (chunkZ : Int) (acc : Session × List Structure)
    (hz1 : bounds.2.1 ≤ chunkZ) (hz2 : chunkZ ≤ bounds.2.2.2)
    (hinv : ScanInv (WrittenAt st1.g_seed centerX centerZ radius structure_type bounds) st1
      (chunkZ, bounds.1, 0) acc.1 acc.2) :
    ∃ acc1, scanRow (fuel + 1) seed_str version centerX centerZ radius structure_type
        bounds.1 bounds.2.2.1 acc chunkZ = some acc1 ∧
      ScanInv (WrittenAt st1.g_seed centerX centerZ radius structure_type bounds) st1
        (chunkZ + 1, bounds.1, 0) acc1.1 acc1.2 := by
  obtain ⟨acc1, h1, h2⟩ := foldlM_intRange_inv
    (scanChunk (fuel + 1) seed_str version centerX centerZ radius structure_type chunkZ)
    (fun cx acc => ScanInv (WrittenAt st1.g_seed centerX centerZ radius structure_type bounds)
      st1 (chunkZ, cx, 0) acc.1 acc.2)
    bounds.1 bounds.2.2.1 acc hinv
    (fun cx acc hx1 hx2 hI => scanChunk_inv fuel seed_str version centerX centerZ radius
      structure_type bounds st1 hstable chunkZ hz1 hz2 cx acc hx1 hx2 hI)
  exact ⟨acc1, h1, ScanInv_mono h2 (fun a ha => scanBefore_next_row a _ _ _ _ ha)⟩

/-- The whole search returns, leaves the globals as the guard set them, and
every record comes from a position of the scan, the positions increasing along
the result. -/
theorem getStructuresNear_scan (fuel : Nat) (st : Session) (seed_str : CStr)
    (centerX centerZ : Int) (type_str : CStr) (radius : Int) (version : CStr) :
    ∃ res, getStructuresNear (fuel + 1) st seed_str centerX centerZ type_str radius version
        = some (res, ensureSession st seed_str version) ∧
      res.Pairwise (fun p q => ∃ a b,
        WrittenAt (ensureSession st seed_str version).g_seed centerX centerZ radius
          (structureTypeOf type_str) (chunkBounds centerX centerZ radius) a p ∧
        WrittenAt (ensureSession st seed_str version).g_seed centerX centerZ radius
          (structureTypeOf type_str) (chunkBounds centerX centerZ radius) b q ∧
        scanBefore a b) ∧
      ∀ p ∈ res, ∃ a,
        WrittenAt (ensureSession st seed_str version).g_seed centerX centerZ radius
          (structureTypeOf type_str) (chunkBounds centerX centerZ radius) a p := by
  obtain ⟨acc1, h1, h2⟩ := foldlM_intRange_inv
    (scanRow (fuel + 1) seed_str version centerX centerZ radius (structureTypeOf type_str)
      (chunkBounds centerX centerZ radius).1 (chunkBounds centerX centerZ radius).2.2.1)
    (fun cz acc => ScanInv (WrittenAt (ensureSession st seed_str version).g_seed centerX centerZ
      radius (structureTypeOf type_str) (chunkBounds centerX centerZ radius))
      (ensureSession st seed_str version) (cz, (chunkBounds centerX centerZ radius).1, 0)
      acc.1 acc.2)
    (chunkBounds centerX centerZ radius).2.1 (chunkBounds centerX centerZ radius).2.2.2
    (ensureSession st seed_str version, [])
    ⟨rfl, List.Pairwise.nil, fun p hp => absurd hp (List.not_mem_nil p)⟩
    (fun cz acc hz1 hz2 hI => scanRow_inv fuel seed_str version centerX centerZ radius
      (structureTypeOf type_str) (chunkBounds centerX centerZ radius)
      (ensureSession st seed_str version) (ensureSession_idem st seed_str version)
      cz acc hz1 hz2 hI)
  obtain ⟨hs, hpw, hall⟩ := h2
  refine ⟨acc1.2, ?_, hpw, fun p hp => ?_⟩
  · unfold getStructuresNear
    simp only []
    rw [h1, ← hs]
    rfl
  · obtain ⟨a, ha, _⟩ := hall p hp
    exact ⟨a, ha⟩

/-! ## Properties of the structure search -/

theorem tdiv16_eq (v : Int) : Int.tdiv v 16 = if 0 ≤ v then v / 16 else -((-v) / 16) := by
  by_cases h : 0 ≤ v
  · rw [if_pos h, Int.tdiv_eq_ediv h (by decide)]
  · rw [if_neg h]
    have h1 : v = -(-v) := by omega
    rw [h1, Int.neg_tdiv, Int.tdiv_eq_ediv (by omega) (by decide)]
    simp

theorem wrap32_range (i : Int) : -2147483648 ≤ wrap32 i ∧ wrap32 i < 2147483648 := by
  unfold wrap32; omega

/-- A chunk coordinate of the scan times 16, plus an offset, stays in the `int` range. -/
theorem chunk_coord_range (v c o : Int) (hv : -2147483648 ≤ v ∧ v < 2147483648)
    (w : Int) (hw : -2147483648 ≤ w ∧ w < 2147483648)
    (h1 : Int.tdiv v 16 ≤ c) (h2 : c ≤ Int.tdiv w 16) (ho0 : 0 ≤ o) (ho1 : o < 16) :
    wrap32 (c * 16 + o) = c * 16 + o ∧ (c * 16 + o) / 16 = c := by
  rw [tdiv16_eq] at h1 h2
  constructor
  · apply wrap32_of_range <;> split_ifs at h1 h2 <;> omega
  · omega

/-- The world coordinates of a written record are the chunk coordinates times
16 plus the offsets, without wraparound. -/
theorem WrittenAt_coords {g : Nat} {centerX centerZ radius structure_type : Int}
    {pos : Int × Int × Int} {p : Structure}
    (h : WrittenAt g centerX centerZ radius structure_type
      (chunkBounds centerX centerZ radius) pos p) :
    p.z / 16 = pos.1 ∧ p.x / 16 = pos.2.1 ∧ p.type = pos.2.2 ∧
    (∃ ox oz : Int, 0 ≤ ox ∧ ox < 16 ∧ 0 ≤ oz ∧ oz < 16 ∧
      p.x = pos.2.1 * 16 + ox ∧ p.z = pos.1 * 16 + oz) := by
  obtain ⟨hz1, hz2, hx1, hx2, _, _, _, hty, ⟨ox, oz, hox0, hox1, hoz0, hoz1, hx, hz⟩, _⟩ := h
  simp only [chunkBounds] at hz1 hz2 hx1 hx2
  obtain ⟨hxw, hxd⟩ := chunk_coord_range _ pos.2.1 ox (wrap32_range _) _ (wrap32_range _)
    hx1 hx2 hox0 hox1
  obtain ⟨hzw, hzd⟩ := chunk_coord_range _ pos.1 oz (wrap32_range _) _ (wrap32_range _)
    hz1 hz2 hoz0 hoz1
  rw [hxw] at hx
  rw [hzw] at hz
  refine ⟨by rw [hz]; exact hzd, by rw [hx]; exact hxd, hty, ox, oz, hox0, hox1, hoz0, hoz1, hx, hz⟩

theorem structureTypeOf_kindName :
    ∀ k : Fin 10, structureTypeOf (cstr (kindName k)) = (k.val : Int) := by
  decide

/-- Claim C5: with one of the ten kind names as filter, the search returns and every
record written has the index of that kind as its type. -/
theorem getStructuresNear_filter_type (fuel : Nat) (st : Session) (seed_str : CStr)
    (centerX centerZ radius : Int) (version : CStr) (k : Fin 10) :
    ∃ res st1, getStructuresNear (fuel + 1) st seed_str centerX centerZ (cstr (kindName k))
        radius version = some (res, st1) ∧ ∀ p ∈ res, p.type = (k.val : Int) := by
  obtain ⟨res, hres, _, hall⟩ := getStructuresNear_scan fuel st seed_str centerX centerZ
    (cstr (kindName k)) radius version
  refine ⟨res, _, hres, fun p hp => ?_⟩
  obtain ⟨a, ha⟩ := hall p hp
  obtain ⟨_, _, _, _, _, _, hf, hty, _⟩ := ha
  rw [structureTypeOf_kindName k] at hf
  rw [hty]
  rcases hf with hf | hf
  · have := Int.natCast_nonneg k.val
    omega
  · exact hf

/-- Claim C7: the search returns, and the records written are in scan order: the
triples (chunk row, chunk column, kind) of any two records, the earlier one
first, are strictly increasing lexicographically. -/
theorem getStructuresNear_scan_order (fuel : Nat) (st : Session) (seed_str : CStr)
    (centerX centerZ : Int) (type_str : CStr) (radius : Int) (version : CStr) :
    ∃ res st1, getStructuresNear (fuel + 1) st seed_str centerX centerZ type_str radius version
        = some (res, st1) ∧
      res.Pairwise (fun p q => scanBefore (p.z / 16, p.x / 16, p.type) (q.z / 16, q.x / 16, q.type)) := by
  obtain ⟨res, hres, hpw, _⟩ := getStructuresNear_scan fuel st seed_str centerX centerZ
    type_str radius version
  refine ⟨res, _, hres, hpw.imp ?_⟩
  rintro p q ⟨a, b, ha, hb, hab⟩
  obtain ⟨ha1, ha2, ha3, _⟩ := WrittenAt_coords ha
  obtain ⟨hb1, hb2, hb3, _⟩ := WrittenAt_coords hb
  rw [ha1, ha2, ha3, hb1, hb2, hb3]
  exact hab

/-- Claim C4: in a search without `int` overflow, the search returns and every
record has the truncated Euclidean distance of its site to the centre as its
distance, at most the radius; its biome is the one `getBiomeAt` returns at the
site under the session left by the call; its kind is eligible on that biome;
with the filter "village" the biome is plains, desert or savanna. -/
theorem getStructuresNear_containment (fuel : Nat) (st : Session) (seed_str : CStr)
    (centerX centerZ : Int) (type_str : CStr) (radius : Int) (version : CStr)
    (hrange : SearchInRange centerX centerZ radius) :
    ∃ res st1, getStructuresNear (fuel + 1) st seed_str centerX centerZ type_str radius version
        = some (res, st1) ∧
      ∀ p ∈ res,
        p.distance = (Nat.sqrt ((p.x - centerX) ^ 2 + (p.z - centerZ) ^ 2).toNat : Nat) ∧
        p.distance ≤ radius ∧
        p.biome = (getBiomeAt st1 seed_str p.x p.z version).1 ∧
        canStructureSpawnInBiome p.type p.biome = true ∧
        (type_str = cstr "village" →
          p.biome = BIOME_PLAINS ∨ p.biome = BIOME_DESERT ∨ p.biome = BIOME_SAVANNA) := by
  obtain ⟨res, hres, _, hall⟩ := getStructuresNear_scan fuel st seed_str centerX centerZ
    type_str radius version
  refine ⟨res, _, hres, fun p hp => ?_⟩
  obtain ⟨a, ha⟩ := hall p hp
  obtain ⟨_, _, _, ox, oz, hox0, hox1, hoz0, hoz1, hx, hz⟩ := WrittenAt_coords ha
  obtain ⟨hz1, hz2, hx1, hx2, _, _, hf, hty, _, hdist, hle, hbiome, hspawn⟩ := ha
  obtain ⟨hr0, hr1, hcx0, hcx1, hcz0, hcz1⟩ := hrange
  simp only [chunkBounds] at hz1 hz2 hx1 hx2
  rw [wrap32_of_range (centerX - radius) (by omega) (by omega), tdiv16_eq] at hx1
  rw [wrap32_of_range (centerX + radius) (by omega) (by omega), tdiv16_eq] at hx2
  rw [wrap32_of_range (centerZ - radius) (by omega) (by omega), tdiv16_eq] at hz1
  rw [wrap32_of_range (centerZ + radius) (by omega) (by omega), tdiv16_eq] at hz2
  have hdx : -32767 ≤ p.x - centerX ∧ p.x - centerX ≤ 32767 := by
    split_ifs at hx1 hx2 <;> omega
  have hdz : -32767 ≤ p.z - centerZ ∧ p.z - centerZ ≤ 32767 := by
    split_ifs at hz1 hz2 <;> omega
  have hsq : 0 ≤ (p.x - centerX) * (p.x - centerX) + (p.z - centerZ) * (p.z - centerZ) ∧
      (p.x - centerX) * (p.x - centerX) + (p.z - centerZ) * (p.z - centerZ) < 2147483648 := by
    constructor <;> nlinarith [hdx.1, hdx.2, hdz.1, hdz.2]
  rw [wrap32_of_range (p.x - centerX) (by omega) (by omega),
    wrap32_of_range (p.z - centerZ) (by omega) (by omega),
    wrap32_of_range _ (by omega) (by omega)] at hdist
  refine ⟨?_, hle, ?_, hspawn, ?_⟩
  · rw [hdist, intSqrt, if_neg (not_lt.mpr hsq.1)]
    congr 3
    ring
  · rw [getBiomeAt_fst, ensureSession_idem]
    exact hbiome
  · intro hv
    have h0 : p.type = 0 := by
      rw [hv] at hf
      have hs : structureTypeOf (cstr "village") = 0 := by decide
      rw [hs] at hf
      omega
    rw [h0] at hspawn
    simpa [canStructureSpawnInBiome, STRUCTURE_VILLAGE, or_assoc] using hspawn

/-- Witness of claim C4 at seed "12345", centre (0, 0), filter "village", radius 160. -/
theorem getStructuresNear_containment_witness :
    SearchInRange 0 0 160 ∧
    ∃ res st1, getStructuresNear (0 + 1) Session.initial (cstr "12345") 0 0 (cstr "village") 160
        (cstr "1.20") = some (res, st1) ∧
      ∀ p ∈ res,
        p.distance = (Nat.sqrt ((p.x - 0) ^ 2 + (p.z - 0) ^ 2).toNat : Nat) ∧
        p.distance ≤ 160 ∧
        p.biome = (getBiomeAt st1 (cstr "12345") p.x p.z (cstr "1.20")).1 ∧
        canStructureSpawnInBiome p.type p.biome = true ∧
        (cstr "village" = cstr "village" →
          p.biome = BIOME_PLAINS ∨ p.biome = BIOME_DESERT ∨ p.biome = BIOME_SAVANNA) :=
  ⟨⟨by decide, by decide, by decide, by decide, by decide, by decide⟩,
    getStructuresNear_containment 0 Session.initial (cstr "12345") 0 0 (cstr "village") 160
      (cstr "1.20") ⟨by decide, by decide, by decide, by decide, by decide, by decide⟩⟩

/-! ## The stream recurrence -/

/-- The state-independent facts of `javarand_init` and `javarand_next`. -/
theorem javarand_init_seed (value : Nat) :
    (javarand_init value).seed = (value ^^^ 25214903917) % 281474976710656 := by
  simp only [javarand_init, mask48_eq_mod]

theorem JavaRandom_ext (a b : JavaRandom) (h : a.seed = b.seed) : a = b := by
  cases a; cases b; simp_all

/-- Claim C11: `javarand_init` stores `(value XOR 0x5DEECE66D) mod 2^48`; for every
state and for `bits ≤ 31`, `javarand_next` stores `(s * 0x5DEECE66D + 0xB) mod 2^48`
(the wrapped 64-bit product followed by the mask is the exact recurrence) and
returns the floor of the new state over `2^(48 - bits)`, a value in `[0, 2^bits)`;
the state after any number of draws is below `2^48`; and in the stream seeded
with 0 the draw after `k` earlier ones is the floor of `s_(k+1) / 2^17` for
`s_0 = 0x5DEECE66D`, `s_(i+1) = (s_i * 0x5DEECE66D + 0xB) mod 2^48`. -/
theorem javarand_stream_spec (value : Nat) (rand : JavaRandom) (bits : Nat) (hb : bits ≤ 31)
    (k : Nat) :
    (javarand_init value).seed = (value ^^^ 0x5DEECE66D) % 2 ^ 48 ∧
    (javarand_next rand bits).2.seed = (rand.seed * 0x5DEECE66D + 0xB) % 2 ^ 48 ∧
    (javarand_next rand bits).1
      = (((rand.seed * 0x5DEECE66D + 0xB) % 2 ^ 48 / 2 ^ (48 - bits) : Nat) : Int) ∧
    0 ≤ (javarand_next rand bits).1 ∧ (javarand_next rand bits).1 < 2 ^ bits ∧
    (drawn (javarand_next rand bits).2 k).seed < 2 ^ 48 ∧
    (javarand_init 0).seed = 0x5DEECE66D ∧
    (javarand_next (drawn (javarand_init 0) k) 31).1
      = (((fun s => (s * 0x5DEECE66D + 0xB) % 2 ^ 48)^[k + 1] 0x5DEECE66D / 2 ^ 17 : Nat) : Int) := by
  have h48 : (2:Nat) ^ 48 = 281474976710656 := by norm_num
  obtain ⟨hv, _⟩ := javarand_next_val rand bits hb
  obtain ⟨h0, h1⟩ := javarand_next_bounds rand bits hb
  have hinit0 : (javarand_init 0).seed = 25214903917 := by decide
  refine ⟨by rw [javarand_init_seed, h48], by rw [javarand_next_seed, h48]; rfl,
    by rw [hv, h48]; rfl, h0, h1, ?_, hinit0, ?_⟩
  · rw [drawn_seed, h48]
    cases k with
    | zero => rw [Function.iterate_zero, id, javarand_next_seed]; exact lcgStep_lt _
    | succ k => rw [Function.iterate_succ_apply']; exact lcgStep_lt _
  · obtain ⟨hv31, _⟩ := javarand_next_val (drawn (javarand_init 0) k) 31 (le_refl _)
    rw [hv31, drawn_seed, hinit0, ← Function.iterate_succ_apply' lcgStep, h48]
    rfl

/-- Witness of claim C11 at value 12345, the stream seeded with 0, 31 bits, 3 earlier draws. -/
theorem javarand_stream_spec_witness :
    (31 : Nat) ≤ 31 ∧
    (javarand_init 12345).seed = (12345 ^^^ 0x5DEECE66D) % 2 ^ 48 ∧
    (javarand_next (javarand_init 0) 31).2.seed = ((javarand_init 0).seed * 0x5DEECE66D + 0xB) % 2 ^ 48 ∧
    (javarand_next (javarand_init 0) 31).1
      = ((((javarand_init 0).seed * 0x5DEECE66D + 0xB) % 2 ^ 48 / 2 ^ (48 - 31) : Nat) : Int) ∧
    0 ≤ (javarand_next (javarand_init 0) 31).1 ∧ (javarand_next (javarand_init 0) 31).1 < 2 ^ 31 ∧
    (drawn (javarand_next (javarand_init 0) 31).2 3).seed < 2 ^ 48 ∧
    (javarand_init 0).seed = 0x5DEECE66D ∧
    (javarand_next (drawn (javarand_init 0) 3) 31).1
      = (((fun s => (s * 0x5DEECE66D + 0xB) % 2 ^ 48)^[3 + 1] 0x5DEECE66D / 2 ^ 17 : Nat) : Int) :=
  ⟨le_refl _, javarand_stream_spec 12345 (javarand_init 0) 31 (le_refl _) 3⟩

/-! ## Reachable biomes and unknown filters -/

/-- A filter text that is none of the ten kind names leaves `structure_type` at -1. -/
theorem structureTypeOf_unknown (type_str : CStr)
    (h : ∀ k : Fin 10, type_str ≠ cstr (kindName k)) : structureTypeOf type_str = -1 := by
  have n0 : cstr (kindName 0) = cstr "village" := by decide
  have n1 : cstr (kindName 1) = cstr "temple" := by decide
  have n2 : cstr (kindName 2) = cstr "stronghold" := by decide
  have n3 : cstr (kindName 3) = cstr "monument" := by decide
  have n4 : cstr (kindName 4) = cstr "mansion" := by decide
  have n5 : cstr (kindName 5) = cstr "mineshaft" := by decide
  have n6 : cstr (kindName 6) = cstr "fortress" := by decide
  have n7 : cstr (kindName 7) = cstr "spawner" := by decide
  have n8 : cstr (kindName 8) = cstr "outpost" := by decide
  have n9 : cstr (kindName 9) = cstr "ruined_portal" := by decide
  have e0 := h 0
  have e1 := h 1
  have e2 := h 2
  have e3 := h 3
  have e4 := h 4
  have e5 := h 5
  have e6 := h 6
  have e7 := h 7
  have e8 := h 8
  have e9 := h 9
  rw [n0] at e0; rw [n1] at e1; rw [n2] at e2; rw [n3] at e3; rw [n4] at e4
  rw [n5] at e5; rw [n6] at e6; rw [n7] at e7; rw [n8] at e8; rw [n9] at e9
  unfold structureTypeOf
  rw [if_neg e0, if_neg e1, if_neg e2, if_neg e3, if_neg e4, if_neg e5, if_neg e6, if_neg e7,
    if_neg e8, if_neg e9]


theorem biomeDecision_mem (t h v w : ℚ) : biomeDecision t h v w ∈ reachableBiomes := by
  unfold biomeDecision
  generalize lit_0_1 = c1
  generalize lit_0_2 = c2
  generalize lit_0_3 = c3
  generalize lit_0_4 = c4
  generalize lit_0_5 = c5
  generalize lit_0_6 = c6
  generalize lit_0_7 = c7
  split_ifs <;> decide

theorem biomeOfSeed_mem (g : Nat) (x z : Int) : biomeOfSeed g x z ∈ reachableBiomes :=
  biomeDecision_mem _ _ _ _

theorem reachableBiomes_range (b : Int) (hb : b ∈ reachableBiomes) :
    1 ≤ b ∧ b ≤ 15 ∧ b ≠ BIOME_MOUNTAINS ∧ b ≠ BIOME_BEACH ∧ b ≠ BIOME_MUSHROOM_ISLAND ∧
      b ≠ BIOME_DARK_FOREST := by
  simp only [reachableBiomes, List.mem_cons, List.mem_singleton, List.not_mem_nil, or_false] at hb
  rcases hb with h | h | h | h | h | h | h | h | h | h | h <;> subst h <;> decide

/-- Claim C15: for every noise quadruple the decision tree returns one id in
1..15 that is not mountains, beach or mushroom_island, and so does `getBiomeAt`
for every session, seed text, coordinate and version. -/
theorem getBiomeAt_total :
    (∀ t h v w : ℚ, 1 ≤ biomeDecision t h v w ∧ biomeDecision t h v w ≤ 15 ∧
      biomeDecision t h v w ≠ BIOME_MOUNTAINS ∧ biomeDecision t h v w ≠ BIOME_BEACH ∧
      biomeDecision t h v w ≠ BIOME_MUSHROOM_ISLAND) ∧
    (∀ (st : Session) (seed_str : CStr) (x z : Int) (version : CStr),
      1 ≤ (getBiomeAt st seed_str x z version).1 ∧ (getBiomeAt st seed_str x z version).1 ≤ 15 ∧
      (getBiomeAt st seed_str x z version).1 ≠ BIOME_MOUNTAINS ∧
      (getBiomeAt st seed_str x z version).1 ≠ BIOME_BEACH ∧
      (getBiomeAt st seed_str x z version).1 ≠ BIOME_MUSHROOM_ISLAND) := by
  constructor
  · intro t h v w
    obtain ⟨h1, h2, h3, h4, h5, _⟩ := reachableBiomes_range _ (biomeDecision_mem t h v w)
    exact ⟨h1, h2, h3, h4, h5⟩
  · intro st seed_str x z version
    rw [getBiomeAt_fst]
    obtain ⟨h1, h2, h3, h4, h5, _⟩ := reachableBiomes_range _ (biomeOfSeed_mem _ x z)
    exact ⟨h1, h2, h3, h4, h5⟩

theorem structureTypeOf_mansion : structureTypeOf (cstr "mansion") = 4 := by decide

/-- Claim C17: `getBiomeAt` never returns dark_forest; the search returns for every
input and no record it writes has kind mansion (type 4); with the filter
"mansion" it writes nothing, so the count is 0. -/
theorem getStructuresNear_no_mansion (fuel : Nat) (st : Session) (seed_str : CStr)
    (centerX centerZ : Int) (type_str : CStr) (radius : Int) (version : CStr) (x z : Int) :
    (getBiomeAt st seed_str x z version).1 ≠ BIOME_DARK_FOREST ∧
    (∃ res st1, getStructuresNear (fuel + 1) st seed_str centerX centerZ type_str radius version
        = some (res, st1) ∧ ∀ p ∈ res, p.type ≠ STRUCTURE_MANSION) ∧
    (∃ st1, getStructuresNear (fuel + 1) st seed_str centerX centerZ (cstr "mansion") radius
        version = some ([], st1)) := by
  have hno : ∀ (ts : CStr) (res : List Structure),
      (∀ p ∈ res, ∃ a, WrittenAt (ensureSession st seed_str version).g_seed centerX centerZ radius
        (structureTypeOf ts) (chunkBounds centerX centerZ radius) a p) →
      ∀ p ∈ res, p.type ≠ STRUCTURE_MANSION := by
    intro ts res hall p hp hty
    obtain ⟨a, ha⟩ := hall p hp
    obtain ⟨_, _, _, _, _, _, _, _, _, _, _, hbiome, hspawn⟩ := ha
    rw [hty] at hspawn
    have hb : p.biome = BIOME_DARK_FOREST := by
      simpa [canStructureSpawnInBiome, STRUCTURE_VILLAGE, STRUCTURE_TEMPLE, STRUCTURE_STRONGHOLD,
        STRUCTURE_MONUMENT, STRUCTURE_MANSION] using hspawn
    have hm := biomeOfSeed_mem (ensureSession st seed_str version).g_seed p.x p.z
    rw [← hbiome, hb] at hm
    exact (reachableBiomes_range _ hm).2.2.2.2.2 rfl
  refine ⟨?_, ?_, ?_⟩
  · rw [getBiomeAt_fst]
    exact (reachableBiomes_range _ (biomeOfSeed_mem _ x z)).2.2.2.2.2
  · obtain ⟨res, hres, _, hall⟩ := getStructuresNear_scan fuel st seed_str centerX centerZ
      type_str radius version
    exact ⟨res, _, hres, hno type_str res hall⟩
  · obtain ⟨res, hres, _, hall⟩ := getStructuresNear_scan fuel st seed_str centerX centerZ
      (cstr "mansion") radius version
    have hnil : res = [] := by
      rcases res with _ | ⟨p, rest⟩
      · rfl
      · exfalso
        have hp : p ∈ p :: rest := List.mem_cons_self p rest
        obtain ⟨a, ha⟩ := hall p hp
        have hne := hno (cstr "mansion") (p :: rest) hall p hp
        obtain ⟨_, _, _, _, _, _, hf, hty, _⟩ := ha
        rw [structureTypeOf_mansion] at hf
        apply hne
        rw [hty]
        rcases hf with hf | hf
        · omega
        · rw [hf]; rfl
    rw [hnil] at hres
    exact ⟨_, hres⟩

/-! ## Draws consumed by a kind check -/

theorem javarand_next_snd (rand : JavaRandom) (bits : Nat) :
    (javarand_next rand bits).2 = drawn rand 1 := by
  apply JavaRandom_ext
  rw [javarand_next_seed, drawn_seed]
  rfl

theorem drawn_add (rand : JavaRandom) (i j : Nat) : drawn (drawn rand i) j = drawn rand (i + j) := by
  apply JavaRandom_ext
  rw [drawn_seed, drawn_seed, drawn_seed, Nat.add_comm, Function.iterate_add_apply]

theorem javarand_nextDouble_snd (rand : JavaRandom) : (javarand_nextDouble rand).2 = drawn rand 2 := by
  have h : (javarand_nextDouble rand).2 = (javarand_next (javarand_next rand 26).2 27).2 := rfl
  rw [h, javarand_next_snd, javarand_next_snd, drawn_add]

theorem placeStructure_chunkRand (seed_str version : CStr) (centerX centerZ radius : Int)
    (chunkX chunkZ : Int) (s : SearchState) (type offsetX offsetZ : Int) (rand2 : JavaRandom) :
    (placeStructure seed_str version centerX centerZ radius chunkX chunkZ s type
      offsetX offsetZ rand2).chunkRand = rand2 := by
  unfold placeStructure
  simp only []
  split_ifs <;> rfl

/-- Claim C20: `javarand_nextInt(rand, 16)` returns after one pass of its loop
(fuel 1 is enough): it makes one `Next(31)` draw `b`, which is never rejected
because `b - b mod 16 + 15 ≤ 2^31 - 1`, and returns `b mod 16`.  A kind check
that the filter does not skip returns and leaves the chunk stream 2 `Next`
calls further when the spawn roll fails and 4 calls further when it succeeds. -/
theorem javarand_nextInt_16_draws (fuel : Nat) (rand : JavaRandom) (seed_str version : CStr)
    (centerX centerZ radius structure_type chunkX chunkZ : Int) (s : SearchState) (type : Int) :
    javarand_nextInt 1 rand 16
      = some ((javarand_next rand 31).1 % 16, (javarand_next rand 31).2) ∧
    (javarand_next rand 31).1 - (javarand_next rand 31).1 % 16 + 15 ≤ 2147483647 ∧
    ((structure_type ≠ -1 ∧ type ≠ structure_type) ∨
      ∃ s1, checkKind (fuel + 1) seed_str version centerX centerZ radius structure_type
          chunkX chunkZ s type = some s1 ∧
        s1.chunkRand = drawn s.chunkRand
          (if (javarand_nextDouble s.chunkRand).1 < spawnChance type then 4 else 2)) := by
  obtain ⟨hb0, hb1⟩ := javarand_next_bounds rand 31 (le_refl _)
  have hb1' : (javarand_next rand 31).1 < 2147483648 := by
    have : (2:Int) ^ 31 = 2147483648 := by norm_num
    omega
  refine ⟨javarand_nextInt_16 0 rand, by omega, ?_⟩
  by_cases hfilter : structure_type ≠ -1 ∧ type ≠ structure_type
  · exact Or.inl hfilter
  · right
    unfold checkKind
    rw [if_neg hfilter]
    have hd := javarand_nextDouble_snd s.chunkRand
    generalize javarand_nextDouble s.chunkRand = roll at hd ⊢
    generalize spawnChance type = chance
    by_cases hroll : roll.1 < chance
    · refine ⟨placeStructure seed_str version centerX centerZ radius chunkX chunkZ s type
        ((javarand_next roll.2 31).1 % 16)
        ((javarand_next (javarand_next roll.2 31).2 31).1 % 16)
        (javarand_next (javarand_next roll.2 31).2 31).2, ?_, ?_⟩
      · rw [if_pos hroll, javarand_nextInt_16, Option.some_bind, javarand_nextInt_16,
          Option.some_bind]
      · rw [placeStructure_chunkRand, if_pos hroll, javarand_next_snd, javarand_next_snd, hd,
          drawn_add, drawn_add]
    · refine ⟨⟨s.st, roll.2, s.result⟩, ?_, ?_⟩
      · rw [if_neg hroll]
      · rw [if_neg hroll]
        exact hd

/-! ## Seed derivation -/

theorem wrapU64_cast (i : Int) : ((wrapU64 i : Nat) : Int) = i % 18446744073709551616 := by
  unfold wrapU64
  have := Int.emod_nonneg i (by decide : (18446744073709551616 : Int) ≠ 0)
  omega

theorem wrapU64_lt (i : Int) : wrapU64 i < 18446744073709551616 := by
  unfold wrapU64
  have := Int.emod_lt_of_pos i (by decide : (0 : Int) < 18446744073709551616)
  omega

theorem wrapU64_congr (a b : Int) (h : a ≡ b [ZMOD 18446744073709551616]) :
    wrapU64 a = wrapU64 b := by
  unfold wrapU64; rw [h]

theorem hash_seed_foldl (seed_str : CStr) : ∀ hash : Nat, hash < 18446744073709551616 →
    seed_str.foldl (fun hash b => wrapU64 (31 * (hash : Int) + charValue b)) hash
      = wrapU64 ((hash : Int) * 31 ^ seed_str.length + polySum (seed_str.map charValue)) := by
  induction seed_str with
  | nil =>
    intro hash hlt
    simp only [List.foldl_nil, List.length_nil, pow_zero, mul_one, List.map_nil, polySum, add_zero]
    unfold wrapU64
    omega
  | cons b rest ih =>
    intro hash _
    rw [List.foldl_cons, ih _ (wrapU64_lt _)]
    apply wrapU64_congr
    rw [wrapU64_cast]
    have h1 : (31 * (hash : Int) + charValue b) % 18446744073709551616 * 31 ^ rest.length
          + polySum (rest.map charValue)
        ≡ (31 * (hash : Int) + charValue b) * 31 ^ rest.length + polySum (rest.map charValue)
          [ZMOD 18446744073709551616] :=
      ((Int.mod_modEq _ _).mul_right _).add_right _
    refine h1.trans ?_
    have h2 : (31 * (hash : Int) + charValue b) * 31 ^ rest.length + polySum (rest.map charValue)
        = (hash : Int) * 31 ^ (b :: rest).length + polySum ((b :: rest).map charValue) := by
      simp only [List.length_cons, List.map_cons, polySum, List.length_map, pow_succ]
      ring
    rw [h2]

/-- The hash in closed form: the polynomial of the `char` values, modulo `2^64`. -/
theorem hash_seed_eq (seed_str : CStr) :
    hash_seed seed_str = wrapU64 (polySum (seed_str.map charValue)) := by
  unfold hash_seed
  rw [hash_seed_foldl seed_str 0 (by decide)]
  simp

theorem map_charValue_ascii (seed_str : CStr) (h : ∀ b ∈ seed_str, b < 128) :
    seed_str.map charValue = seed_str.map (fun (b : Nat) => (b : Int)) := by
  apply List.map_congr_left
  intro b hb
  have := h b hb
  unfold charValue
  rw [if_pos (by omega)]
  congr 1
  omega

/-- Claim C13, amended: `hash_seed` is the polynomial
`sum of c_i * 31^(n-1-i)` modulo `2^64` of the `char` values `c_i` of the bytes (a
byte below 128 is its own value, a byte `b` from 128 on is `b - 256`); it is the
left-to-right recurrence `hash = 31 * hash + c` from 0 with 64-bit wraparound;
for text whose bytes are all below 128 it is the polynomial of the byte values;
for "hello" it is 99162322. -/
theorem hash_seed_polynomial (seed_str : CStr) :
    hash_seed seed_str = wrapU64 (polySum (seed_str.map charValue)) ∧
    hash_seed seed_str
      = seed_str.foldl (fun hash b => wrapU64 (31 * (hash : Int) + charValue b)) 0 ∧
    ((∀ b ∈ seed_str, b < 128) →
      hash_seed seed_str = wrapU64 (polySum (seed_str.map (fun (b : Nat) => (b : Int))))) ∧
    hash_seed (cstr "hello") = 99162322 := by
  refine ⟨hash_seed_eq seed_str, rfl, fun h => ?_, by decide⟩
  rw [hash_seed_eq, map_charValue_ascii seed_str h]

/-- Witness of the amended claim C13 at "hello", whose bytes are all below 128. -/
theorem hash_seed_polynomial_witness :
    (∀ b ∈ cstr "hello", b < 128) ∧
    hash_seed (cstr "hello")
      = wrapU64 (polySum ((cstr "hello").map (fun (b : Nat) => (b : Int)))) :=
  ⟨by decide, (hash_seed_polynomial (cstr "hello")).2.2.1 (by decide)⟩

/-- Claim C13 as stated fails on the two bytes 195, 169 (the UTF-8 text "é"):
the polynomial of the byte values is 6214, the code's hash is `2^64 - 1978`. -/
theorem hash_seed_high_byte :
    wrapU64 (polySum ([195, 169].map (fun (b : Nat) => (b : Int)))) = 6214 ∧
    hash_seed [195, 169] = 18446744073709549638 ∧
    hash_seed [195, 169] ≠ wrapU64 (polySum ([195, 169].map (fun (b : Nat) => (b : Int)))) := by
  decide

/-- Claim C12, evaluated: "12345" gives the seed 12345 and "hello" the hash of
"hello", but "123abc", which is not a number, gives 123 and not its hash, and
" 42", "+7" and "-1" give 42, 7 and `2^64 - 1` and not their hashes. -/
theorem initGenerator_numeric_prefix :
    (initGenerator (cstr "12345") (cstr "1.20")).g_seed = 12345 ∧
    (initGenerator (cstr "hello") (cstr "1.20")).g_seed = hash_seed (cstr "hello") ∧
    (initGenerator (cstr "123abc") (cstr "1.20")).g_seed = 123 ∧
    hash_seed (cstr "123abc") = 1450620144 ∧
    (initGenerator (cstr " 42") (cstr "1.20")).g_seed = 42 ∧
    hash_seed (cstr " 42") = 32414 ∧
    (initGenerator (cstr "+7") (cstr "1.20")).g_seed = 7 ∧
    hash_seed (cstr "+7") = 1388 ∧
    (initGenerator (cstr "-1") (cstr "1.20")).g_seed = 18446744073709551615 ∧
    hash_seed (cstr "-1") = 1444 := by
  decide

theorem scanBefore_ne (a b : Int × Int × Int) (h : scanBefore a b) : a ≠ b := by
  intro hab
  subst hab
  simp only [scanBefore] at h
  omega

theorem structureTypeOf_named (type_str : CStr) :
    (structureTypeOf type_str = -1 ∧ ¬ ∃ k : Fin 10, type_str = cstr (kindName k)) ∨
    (0 ≤ structureTypeOf type_str ∧ structureTypeOf type_str ≤ 9 ∧
      ∃ k : Fin 10, type_str = cstr (kindName k)) := by
  by_cases hex : ∃ k : Fin 10, type_str = cstr (kindName k)
  · right
    obtain ⟨k, hk⟩ := hex
    have hv := structureTypeOf_kindName k
    rw [← hk] at hv
    have hk2 := k.isLt
    exact ⟨by omega, by omega, k, hk⟩
  · left
    exact ⟨structureTypeOf_unknown type_str (fun k hk => hex ⟨k, hk⟩), hex⟩

/-- A list of distinct positions inside a box of chunk rows, chunk columns and
kinds is no longer than the box is large. -/
theorem length_le_box (keys : List (Int × Int × Int)) (hnd : keys.Nodup)
    (sz ez sx ex t0 t1 : Int)
    (hin : ∀ a ∈ keys, sz ≤ a.1 ∧ a.1 ≤ ez ∧ sx ≤ a.2.1 ∧ a.2.1 ≤ ex ∧ t0 ≤ a.2.2 ∧ a.2.2 ≤ t1) :
    (keys.length : Int) ≤ max 0 (t1 - t0 + 1) * max 0 (ex - sx + 1) * max 0 (ez - sz + 1) := by
  have hsub : keys.toFinset ⊆ Finset.Icc sz ez ×ˢ (Finset.Icc sx ex ×ˢ Finset.Icc t0 t1) := by
    intro a ha
    rw [List.mem_toFinset] at ha
    obtain ⟨h1, h2, h3, h4, h5, h6⟩ := hin a ha
    simp only [Finset.mem_product, Finset.mem_Icc]
    exact ⟨⟨h1, h2⟩, ⟨h3, h4⟩, ⟨h5, h6⟩⟩
  have hcard := Finset.card_le_card hsub
  rw [List.toFinset_card_of_nodup hnd, Finset.card_product, Finset.card_product,
    Int.card_Icc, Int.card_Icc, Int.card_Icc] at hcard
  have hc : ((keys.length : Nat) : Int)
      ≤ (((ez + 1 - sz).toNat * ((ex + 1 - sx).toNat * (t1 + 1 - t0).toNat) : Nat) : Int) := by
    exact_mod_cast hcard
  push_cast at hc
  have e1 : ((ez + 1 - sz).toNat : Int) = max 0 (ez - sz + 1) := by omega
  have e2 : ((ex + 1 - sx).toNat : Int) = max 0 (ex - sx + 1) := by omega
  have e3 : ((t1 + 1 - t0).toNat : Int) = max 0 (t1 - t0 + 1) := by omega
  rw [e1, e2, e3] at hc
  calc (keys.length : Int) ≤ _ := hc
    _ = _ := by ring

theorem intSqrt_nonneg (m : Int) (h : 0 ≤ m) : 0 ≤ intSqrt m := by
  unfold intSqrt
  rw [if_neg (not_lt.mpr h)]
  exact Int.natCast_nonneg _

/-- Claim C18 (amended): the search returns, and the number of records written is
at most `K * NX * NZ`, with `NX` and `NZ` the numbers of chunk columns and rows
scanned and `K` 1 when the filter is one of the ten kind names and 10 otherwise;
for a negative radius nothing is written when the four sums `centerX ± radius`,
`centerZ ± radius` do not overflow. -/
theorem getStructuresNear_count_bound (fuel : Nat) (st : Session) (seed_str : CStr)
    (centerX centerZ : Int) (type_str : CStr) (radius : Int) (version : CStr) :
    ∃ res st1, getStructuresNear (fuel + 1) st seed_str centerX centerZ type_str radius version
        = some (res, st1) ∧
      (res.length : Int) ≤ (if ∃ k : Fin 10, type_str = cstr (kindName k) then 1 else 10)
        * max 0 ((chunkBounds centerX centerZ radius).2.2.1
            - (chunkBounds centerX centerZ radius).1 + 1)
        * max 0 ((chunkBounds centerX centerZ radius).2.2.2
            - (chunkBounds centerX centerZ radius).2.1 + 1) ∧
      (radius < 0 → ChunkSumsInRange centerX centerZ radius → res = []) := by
  obtain ⟨res, hres, hpw, hall⟩ := getStructuresNear_scan fuel st seed_str centerX centerZ
    type_str radius version
  refine ⟨res, _, hres, ?_, ?_⟩
  · have hkeys : (res.map (fun p => (p.z / 16, p.x / 16, p.type))).Nodup := by
      rw [List.Nodup, List.pairwise_map]
      refine hpw.imp ?_
      rintro p q ⟨a, b, ha, hb, hab⟩
      obtain ⟨ha1, ha2, ha3, _⟩ := WrittenAt_coords ha
      obtain ⟨hb1, hb2, hb3, _⟩ := WrittenAt_coords hb
      rw [ha1, ha2, ha3, hb1, hb2, hb3]
      exact scanBefore_ne a b hab
    have hlen : (res.map (fun p => (p.z / 16, p.x / 16, p.type))).length = res.length :=
      List.length_map _ _
    rcases structureTypeOf_named type_str with ⟨hst, hno⟩ | ⟨hs0, hs9, hyes⟩
    · rw [if_neg hno]
      have hb := length_le_box _ hkeys (chunkBounds centerX centerZ radius).2.1
        (chunkBounds centerX centerZ radius).2.2.2 (chunkBounds centerX centerZ radius).1
        (chunkBounds centerX centerZ radius).2.2.1 0 9 (by
          intro k hk
          rw [List.mem_map] at hk
          obtain ⟨p, hp, rfl⟩ := hk
          obtain ⟨a, ha⟩ := hall p hp
          obtain ⟨ha1, ha2, ha3, _⟩ := WrittenAt_coords ha
          obtain ⟨hz1, hz2, hx1, hx2, ht1, ht2, _⟩ := ha
          simp only
          rw [ha1, ha2, ha3]
          exact ⟨hz1, hz2, hx1, hx2, ht1, ht2⟩)
      rw [hlen] at hb
      exact hb
    · rw [if_pos hyes]
      have hb := length_le_box _ hkeys (chunkBounds centerX centerZ radius).2.1
        (chunkBounds centerX centerZ radius).2.2.2 (chunkBounds centerX centerZ radius).1
        (chunkBounds centerX centerZ radius).2.2.1 (structureTypeOf type_str)
        (structureTypeOf type_str) (by
          intro k hk
          rw [List.mem_map] at hk
          obtain ⟨p, hp, rfl⟩ := hk
          obtain ⟨a, ha⟩ := hall p hp
          obtain ⟨ha1, ha2, ha3, _⟩ := WrittenAt_coords ha
          obtain ⟨hz1, hz2, hx1, hx2, ht1, ht2, hf, _⟩ := ha
          simp only
          rw [ha1, ha2, ha3]
          refine ⟨hz1, hz2, hx1, hx2, ?_, ?_⟩ <;> omega)
      rw [hlen] at hb
      have e : max 0 (structureTypeOf type_str - structureTypeOf type_str + 1) = 1 := by omega
      rw [e] at hb
      exact hb
  · intro hr hsums
    rcases res with _ | ⟨p, rest⟩
    · rfl
    · exfalso
      obtain ⟨a, ha⟩ := hall p (List.mem_cons_self p rest)
      obtain ⟨_, _, _, ox, oz, hox0, hox1, hoz0, hoz1, hx, hz⟩ := WrittenAt_coords ha
      obtain ⟨hz1, hz2, hx1, hx2, _, _, _, _, _, hdist, hle, _⟩ := ha
      obtain ⟨⟨hxm0, hxm1⟩, ⟨hxp0, hxp1⟩, ⟨hzm0, hzm1⟩, ⟨hzp0, hzp1⟩⟩ := hsums
      simp only [chunkBounds] at hz1 hz2 hx1 hx2
      rw [wrap32_of_range (centerX - radius) (by omega) (by omega), tdiv16_eq] at hx1
      rw [wrap32_of_range (centerX + radius) (by omega) (by omega), tdiv16_eq] at hx2
      rw [wrap32_of_range (centerZ - radius) (by omega) (by omega), tdiv16_eq] at hz1
      rw [wrap32_of_range (centerZ + radius) (by omega) (by omega), tdiv16_eq] at hz2
      have hdx : -64 ≤ p.x - centerX ∧ p.x - centerX ≤ 64 := by
        split_ifs at hx1 hx2 <;> omega
      have hdz : -64 ≤ p.z - centerZ ∧ p.z - centerZ ≤ 64 := by
        split_ifs at hz1 hz2 <;> omega
      have hsq : 0 ≤ (p.x - centerX) * (p.x - centerX) + (p.z - centerZ) * (p.z - centerZ) ∧
          (p.x - centerX) * (p.x - centerX) + (p.z - centerZ) * (p.z - centerZ) < 2147483648 := by
        constructor <;> nlinarith [hdx.1, hdx.2, hdz.1, hdz.2]
      rw [wrap32_of_range (p.x - centerX) (by omega) (by omega),
        wrap32_of_range (p.z - centerZ) (by omega) (by omega),
        wrap32_of_range _ (by omega) (by omega)] at hdist
      have hnn := intSqrt_nonneg _ hsq.1
      rw [← hdist] at hnn
      omega

/-- Witness of claim C18 at seed "12345", centre (0, 0), filter "village", radius -1. -/
theorem getStructuresNear_count_bound_witness :
    (-1 : Int) < 0 ∧ ChunkSumsInRange 0 0 (-1) ∧
    ∃ res st1, getStructuresNear (0 + 1) Session.initial (cstr "12345") 0 0 (cstr "village") (-1)
        (cstr "1.20") = some (res, st1) ∧ res = [] :=
  ⟨by decide, by decide,
    (getStructuresNear_count_bound 0 Session.initial (cstr "12345") 0 0 (cstr "village") (-1)
      (cstr "1.20")).elim fun res h => h.elim fun st1 h1 =>
        ⟨res, st1, h1.1, h1.2.2 (by decide) (by decide)⟩⟩

/-! ## Two searches side by side -/

theorem placeStructure_normal (seed_str version : CStr) (centerX centerZ radius : Int)
    (chunkX chunkZ : Int) (s : SearchState) (type offsetX offsetZ : Int) (rand2 : JavaRandom)
    (hstable : ensureSession s.st seed_str version = s.st) :
    placeStructure seed_str version centerX centerZ radius chunkX chunkZ s type
        offsetX offsetZ rand2
      = ⟨s.st, rand2, s.result ++ placedRecords (biomeOfSeed s.st.g_seed) centerX centerZ radius
          chunkX chunkZ type offsetX offsetZ⟩ := by
  have hb2 : ∀ x z, (getBiomeAt s.st seed_str x z version).2 = s.st := fun x z => by
    rw [getBiomeAt_snd, hstable]
  have hb1 : ∀ x z, (getBiomeAt s.st seed_str x z version).1 = biomeOfSeed s.st.g_seed x z :=
    fun x z => by rw [getBiomeAt_fst, hstable]
  unfold placeStructure placedRecords
  simp only [hb1, hb2]
  split_ifs with h1 h2 h3 h4 h5
  · rfl
  · exact absurd ⟨h1, h2⟩ h3
  · exact absurd h4.2 h2
  · simp
  · exact absurd h5.1 h1
  · simp

theorem checkKind_normal (fuel : Nat) (seed_str version : CStr)
    (centerX centerZ radius structure_type : Int) (chunkX chunkZ : Int) (s : SearchState)
    (type : Int) (hstable : ensureSession s.st seed_str version = s.st) :
    checkKind (fuel + 1) seed_str version centerX centerZ radius structure_type
        chunkX chunkZ s type
      = some ⟨s.st,
          (kindStep (biomeOfSeed s.st.g_seed) centerX centerZ radius structure_type chunkX chunkZ
            s.chunkRand type).1,
          s.result ++ (kindStep (biomeOfSeed s.st.g_seed) centerX centerZ radius structure_type
            chunkX chunkZ s.chunkRand type).2⟩ := by
  unfold checkKind kindStep
  by_cases hfilter : structure_type ≠ -1 ∧ type ≠ structure_type
  · rw [if_pos hfilter, if_pos hfilter]
    simp
  · rw [if_neg hfilter, if_neg hfilter]
    generalize javarand_nextDouble s.chunkRand = roll
    generalize spawnChance type = chance
    by_cases hroll : roll.1 < chance
    · rw [if_pos hroll, if_pos hroll, javarand_nextInt_16, Option.some_bind, javarand_nextInt_16,
        Option.some_bind, placeStructure_normal _ _ _ _ _ _ _ _ _ _ _ _ hstable]
    · rw [if_neg hroll, if_neg hroll]
      simp

/-- Rule for two runs of a `for (i = lo; i <= hi; i++)` loop side by side: a
relation between the two states, indexed by the loop variable, that every pair
of iterations carries forward holds at the exit, and both loops return. -/
theorem foldlM_range_rel {σ τ : Type} (f : σ → Int → Option σ) (g : τ → Int → Option τ)
    (R : Int → σ → τ → Prop) (lo : Int) (n : Nat) : ∀ (s : σ) (t : τ), R lo s t →
    (∀ i s t, lo ≤ i → i < lo + n → R i s t →
      ∃ s1 t1, f s i = some s1 ∧ g t i = some t1 ∧ R (i + 1) s1 t1) →
    ∃ s1 t1, ((List.range n).map (fun k : Nat => lo + (k : Int))).foldlM f s = some s1 ∧
      ((List.range n).map (fun k : Nat => lo + (k : Int))).foldlM g t = some t1 ∧
      R (lo + n) s1 t1 := by
  induction n with
  | zero =>
    intro s t h0 _
    exact ⟨s, t, rfl, rfl, by simpa using h0⟩
  | succ n ih =>
    intro s t h0 hstep
    obtain ⟨s1, t1, hs1, ht1, hR1⟩ := ih s t h0
      (fun i s t hi1 hi2 hI => hstep i s t hi1 (by push_cast; omega) hI)
    obtain ⟨s2, t2, hs2, ht2, hR2⟩ := hstep (lo + n) s1 t1 (by omega) (by push_cast; omega) hR1
    refine ⟨s2, t2, ?_, ?_, ?_⟩
    · rw [List.range_succ, List.map_append, List.foldlM_append, hs1]
      simpa using hs2
    · rw [List.range_succ, List.map_append, List.foldlM_append, ht1]
      simpa using ht2
    · have : lo + ((n + 1 : Nat) : Int) = lo + n + 1 := by push_cast; ring
      rw [this]; exact hR2

theorem foldlM_intRange_rel {σ τ : Type} (f : σ → Int → Option σ) (g : τ → Int → Option τ)
    (R : Int → σ → τ → Prop) (lo hi : Int) (s : σ) (t : τ) (h0 : R lo s t)
    (hstep : ∀ i s t, lo ≤ i → i ≤ hi → R i s t →
      ∃ s1 t1, f s i = some s1 ∧ g t i = some t1 ∧ R (i + 1) s1 t1) :
    ∃ s1 t1, (intRange lo hi).foldlM f s = some s1 ∧ (intRange lo hi).foldlM g t = some t1 ∧
      R (max lo (hi + 1)) s1 t1 := by
  obtain ⟨s1, t1, h1, h2, h3⟩ := foldlM_range_rel f g R lo (hi - lo + 1).toNat s t h0
    (fun i s t hi1 hi2 hI => hstep i s t hi1 (by omega) hI)
  refine ⟨s1, t1, by unfold intRange; exact h1, by unfold intRange; exact h2, ?_⟩
  have : lo + (((hi - lo + 1).toNat : Nat) : Int) = max lo (hi + 1) := by omega
  rw [← this]; exact h3

/-- Two searches whose kind checks are related step by step are related at the
end: the rule above through the kind, chunk and row loops.  `Q` relates the
sessions and result buffers, `P t` adds the relation of the chunk streams before
kind `t`. -/
theorem search_rel (fuel : Nat) (seed_str version seed_str1 version1 : CStr)
    (centerX centerZ radius structure_type structure_type1 : Int)
    (bounds : Int × Int × Int × Int)
    (Q : Session → List Structure → Session → List Structure → Prop)
    (P : Int → JavaRandom → JavaRandom → Prop)
    (hinit : ∀ sa ra sb rb (chunkX chunkZ : Int), Q sa ra sb rb →
      P 0 (javarand_init (wrapU64 ((sa.g_seed : Int) + chunkX * 341873128712
            + chunkZ * 132897987541)))
          (javarand_init (wrapU64 ((sb.g_seed : Int) + chunkX * 341873128712
            + chunkZ * 132897987541))))
    (hkind : ∀ (chunkX chunkZ t : Int) (a b : SearchState), 0 ≤ t → t ≤ 9 →
      Q a.st a.result b.st b.result → P t a.chunkRand b.chunkRand →
      ∃ a1 b1,
        checkKind (fuel + 1) seed_str version centerX centerZ radius structure_type
          chunkX chunkZ a t = some a1 ∧
        checkKind (fuel + 1) seed_str1 version1 centerX centerZ radius structure_type1
          chunkX chunkZ b t = some b1 ∧
        Q a1.st a1.result b1.st b1.result ∧ P (t + 1) a1.chunkRand b1.chunkRand)
    (sa sb : Session) (h0 : Q sa [] sb []) :
    ∃ acc acc1,
      (intRange bounds.2.1 bounds.2.2.2).foldlM
        (scanRow (fuel + 1) seed_str version centerX centerZ radius structure_type
          bounds.1 bounds.2.2.1) (sa, []) = some acc ∧
      (intRange bounds.2.1 bounds.2.2.2).foldlM
        (scanRow (fuel + 1) seed_str1 version1 centerX centerZ radius structure_type1
          bounds.1 bounds.2.2.1) (sb, []) = some acc1 ∧
      Q acc.1 acc.2 acc1.1 acc1.2 := by
  have hchunk : ∀ (chunkZ chunkX : Int) (a b : Session × List Structure), Q a.1 a.2 b.1 b.2 →
      ∃ a1 b1,
        scanChunk (fuel + 1) seed_str version centerX centerZ radius structure_type chunkZ a
          chunkX = some a1 ∧
        scanChunk (fuel + 1) seed_str1 version1 centerX centerZ radius structure_type1 chunkZ b
          chunkX = some b1 ∧
        Q a1.1 a1.2 b1.1 b1.2 := by
    intro chunkZ chunkX a b hQ
    obtain ⟨a1, b1, h1, h2, h3, _⟩ := foldlM_intRange_rel
      (checkKind (fuel + 1) seed_str version centerX centerZ radius structure_type chunkX chunkZ)
      (checkKind (fuel + 1) seed_str1 version1 centerX centerZ radius structure_type1
        chunkX chunkZ)
      (fun t x y => Q x.st x.result y.st y.result ∧ P t x.chunkRand y.chunkRand)
      0 9
      ⟨a.1, javarand_init (wrapU64 ((a.1.g_seed : Int) + chunkX * 341873128712
        + chunkZ * 132897987541)), a.2⟩
      ⟨b.1, javarand_init (wrapU64 ((b.1.g_seed : Int) + chunkX * 341873128712
        + chunkZ * 132897987541)), b.2⟩
      ⟨hQ, hinit _ _ _ _ chunkX chunkZ hQ⟩
      (fun t x y ht1 ht2 hI => by
        obtain ⟨x1, y1, e1, e2, e3, e4⟩ := hkind chunkX chunkZ t x y ht1 ht2 hI.1 hI.2
        exact ⟨x1, y1, e1, e2, e3, e4⟩)
    refine ⟨(a1.st, a1.result), (b1.st, b1.result), ?_, ?_, h3⟩
    · unfold scanChunk
      show Option.map _ (List.foldlM _ _ _) = _
      rw [h1]; rfl
    · unfold scanChunk
      show Option.map _ (List.foldlM _ _ _) = _
      rw [h2]; rfl
  have hrow : ∀ (chunkZ : Int) (a b : Session × List Structure), Q a.1 a.2 b.1 b.2 →
      ∃ a1 b1,
        scanRow (fuel + 1) seed_str version centerX centerZ radius structure_type
          bounds.1 bounds.2.2.1 a chunkZ = some a1 ∧
        scanRow (fuel + 1) seed_str1 version1 centerX centerZ radius structure_type1
          bounds.1 bounds.2.2.1 b chunkZ = some b1 ∧
        Q a1.1 a1.2 b1.1 b1.2 := by
    intro chunkZ a b hQ
    exact foldlM_intRange_rel
      (scanChunk (fuel + 1) seed_str version centerX centerZ radius structure_type chunkZ)
      (scanChunk (fuel + 1) seed_str1 version1 centerX centerZ radius structure_type1 chunkZ)
      (fun _ x y => Q x.1 x.2 y.1 y.2) bounds.1 bounds.2.2.1 a b hQ
      (fun cx x y _ _ hI => hchunk chunkZ cx x y hI)
  exact foldlM_intRange_rel
    (scanRow (fuel + 1) seed_str version centerX centerZ radius structure_type
      bounds.1 bounds.2.2.1)
    (scanRow (fuel + 1) seed_str1 version1 centerX centerZ radius structure_type1
      bounds.1 bounds.2.2.1)
    (fun _ x y => Q x.1 x.2 y.1 y.2) bounds.2.1 bounds.2.2.2 (sa, []) (sb, []) h0
    (fun cz x y _ _ hI => hrow cz x y hI)

theorem xor_mod_two_pow (a b n : Nat) : (a ^^^ b) % 2 ^ n = (a % 2 ^ n) ^^^ (b % 2 ^ n) := by
  apply Nat.eq_of_testBit_eq
  intro i
  simp only [Nat.testBit_mod_two_pow, Nat.testBit_xor]
  by_cases h : i < n <;> simp [h]

theorem javarand_init_congr (a b : Nat) (h : a % 281474976710656 = b % 281474976710656) :
    javarand_init a = javarand_init b := by
  have h48 : (281474976710656 : Nat) = 2 ^ 48 := by norm_num
  unfold javarand_init
  rw [mask48_eq_mod, mask48_eq_mod, h48, xor_mod_two_pow a, xor_mod_two_pow b, ← h48, h]

theorem chunk_seed_congr (g g1 : Nat) (e : Int)
    (h : g % 281474976710656 = g1 % 281474976710656) :
    javarand_init (wrapU64 ((g : Int) + e)) = javarand_init (wrapU64 ((g1 : Int) + e)) := by
  apply javarand_init_congr
  unfold wrapU64
  omega

theorem noise_congr (x z : Int) (g g1 k : Nat)
    (h : g % 281474976710656 = g1 % 281474976710656) :
    noise x z ((g + k) % 18446744073709551616) = noise x z ((g1 + k) % 18446744073709551616) := by
  unfold noise
  have e : javarand_init (wrapU64 ((((g + k) % 18446744073709551616 : Nat) : Int)
        + x * 341873128712 + z * 132897987541))
      = javarand_init (wrapU64 ((((g1 + k) % 18446744073709551616 : Nat) : Int)
        + x * 341873128712 + z * 132897987541)) := by
    apply javarand_init_congr
    unfold wrapU64
    generalize x * 341873128712 = u
    generalize z * 132897987541 = v
    omega
  rw [e]

theorem biomeOfSeed_congr (g g1 : Nat) (h : g % 281474976710656 = g1 % 281474976710656) :
    biomeOfSeed g = biomeOfSeed g1 := by
  funext x z
  unfold biomeOfSeed
  simp only [noise_congr x z g g1 _ h]

theorem kindStep_types (biome : Int → Int → Int) (centerX centerZ radius structure_type : Int)
    (chunkX chunkZ : Int) (rand : JavaRandom) (type : Int) :
    ∀ p ∈ (kindStep biome centerX centerZ radius structure_type chunkX chunkZ rand type).2,
      p.type = type := by
  intro p hp
  unfold kindStep placedRecords at hp
  split_ifs at hp
  all_goals first
    | exact absurd hp (List.not_mem_nil p)
    | (rw [List.mem_singleton] at hp; rw [hp])

theorem kindStep_skip (biome : Int → Int → Int) (centerX centerZ radius structure_type : Int)
    (chunkX chunkZ : Int) (rand : JavaRandom) (type : Int)
    (h : structure_type ≠ -1 ∧ type ≠ structure_type) :
    kindStep biome centerX centerZ radius structure_type chunkX chunkZ rand type = (rand, []) := by
  unfold kindStep
  rw [if_pos h]

theorem kindStep_pass (biome : Int → Int → Int) (centerX centerZ radius structure_type : Int)
    (chunkX chunkZ : Int) (rand : JavaRandom) (type : Int)
    (h : ¬ (structure_type ≠ -1 ∧ type ≠ structure_type)) :
    kindStep biome centerX centerZ radius structure_type chunkX chunkZ rand type
      = kindStep biome centerX centerZ radius (-1) chunkX chunkZ rand type := by
  have h1 : ¬ ((-1 : Int) ≠ -1 ∧ type ≠ -1) := fun hc => hc.1 rfl
  unfold kindStep
  rw [if_neg h, if_neg h1]

theorem structureTypeOf_village : structureTypeOf (cstr "village") = 0 := by decide

/-- Claim C16: the search with the filter "village" and the search with a
filter text that is no kind name (search all) both return, and the result of
the first is the list of the kind-0 records of the second, in the same order. -/
theorem getStructuresNear_village_sublist (fuel : Nat) (st : Session) (seed_str : CStr)
    (centerX centerZ : Int) (type_str : CStr) (radius : Int) (version : CStr)
    (h : ∀ k : Fin 10, type_str ≠ cstr (kindName k)) :
    ∃ resV resAll st1,
      getStructuresNear (fuel + 1) st seed_str centerX centerZ (cstr "village") radius version
        = some (resV, st1) ∧
      getStructuresNear (fuel + 1) st seed_str centerX centerZ type_str radius version
        = some (resAll, st1) ∧
      resV = resAll.filter (fun p => decide (p.type = STRUCTURE_VILLAGE)) := by
  have hstable := ensureSession_idem st seed_str version
  obtain ⟨acc, acc1, h1, h2, hq1, hq2, hq3⟩ := search_rel fuel seed_str version seed_str version
    centerX centerZ radius 0 (-1) (chunkBounds centerX centerZ radius)
    (fun sa ra sb rb => sa = ensureSession st seed_str version ∧
      sb = ensureSession st seed_str version ∧
      ra = rb.filter (fun p => decide (p.type = STRUCTURE_VILLAGE)))
    (fun t ra rb => t = 0 → ra = rb)
    (fun sa ra sb rb chunkX chunkZ hQ _ => by rw [hQ.1, hQ.2.1])
    (fun chunkX chunkZ t a b ht1 ht2 hQ hP => by
      obtain ⟨ha, hb, hr⟩ := hQ
      have hsa : ensureSession a.st seed_str version = a.st := by rw [ha]; exact hstable
      have hsb : ensureSession b.st seed_str version = b.st := by rw [hb]; exact hstable
      refine ⟨_, _, checkKind_normal fuel seed_str version centerX centerZ radius 0
        chunkX chunkZ a t hsa, checkKind_normal fuel seed_str version centerX centerZ radius (-1)
        chunkX chunkZ b t hsb, ⟨ha, hb, ?_⟩, fun h0 => by omega⟩
      show a.result ++ _ = List.filter _ (b.result ++ _)
      rw [List.filter_append, ← hr, ha, hb]
      congr 1
      have hty := kindStep_types (biomeOfSeed (ensureSession st seed_str version).g_seed)
        centerX centerZ radius (-1) chunkX chunkZ b.chunkRand t
      by_cases ht : t = 0
      · rw [hP ht, kindStep_pass _ _ _ _ 0 _ _ _ t (fun hc => hc.2 ht)]
        symm
        rw [List.filter_eq_self]
        intro p hp
        rw [hty p hp, ht]
        rfl
      · rw [kindStep_skip _ _ _ _ 0 _ _ _ t ⟨by decide, ht⟩]
        symm
        rw [List.filter_eq_nil_iff]
        intro p hp
        rw [hty p hp]
        simpa [STRUCTURE_VILLAGE] using ht)
    (ensureSession st seed_str version) (ensureSession st seed_str version) ⟨rfl, rfl, rfl⟩
  refine ⟨acc.2, acc1.2, ensureSession st seed_str version, ?_, ?_, hq3⟩
  · unfold getStructuresNear
    simp only []
    rw [structureTypeOf_village, h1, ← hq1]
    rfl
  · unfold getStructuresNear
    simp only []
    rw [structureTypeOf_unknown type_str h, h2, ← hq2]
    rfl

/-- Witness of claim C16 at seed "12345", centre (0, 0), radius 160, search-all text "all". -/
theorem getStructuresNear_village_sublist_witness :
    (∀ k : Fin 10, cstr "all" ≠ cstr (kindName k)) ∧
    ∃ resV resAll st1,
      getStructuresNear (0 + 1) Session.initial (cstr "12345") 0 0 (cstr "village") 160
        (cstr "1.20") = some (resV, st1) ∧
      getStructuresNear (0 + 1) Session.initial (cstr "12345") 0 0 (cstr "all") 160
        (cstr "1.20") = some (resAll, st1) ∧
      resV = resAll.filter (fun p => decide (p.type = STRUCTURE_VILLAGE)) :=
  ⟨by decide, getStructuresNear_village_sublist 0 Session.initial (cstr "12345") 0 0 (cstr "all")
    160 (cstr "1.20") (by decide)⟩

/-- Claim C19: two sessions whose seeds after the guard agree modulo `2^48`
give the same biome at every coordinate, and their searches, for every centre,
radius and filter, both return with the same sequence of records. -/
theorem low_48_bits_of_seed (fuel : Nat) (st st1 : Session) (seed_str seed_str1 : CStr)
    (version version1 : CStr) (centerX centerZ : Int) (type_str : CStr) (radius : Int) (x z : Int)
    (h : (ensureSession st seed_str version).g_seed % 2 ^ 48
      = (ensureSession st1 seed_str1 version1).g_seed % 2 ^ 48) :
    (getBiomeAt st seed_str x z version).1 = (getBiomeAt st1 seed_str1 x z version1).1 ∧
    ∃ res s s1,
      getStructuresNear (fuel + 1) st seed_str centerX centerZ type_str radius version
        = some (res, s) ∧
      getStructuresNear (fuel + 1) st1 seed_str1 centerX centerZ type_str radius version1
        = some (res, s1) := by
  have h48 : (2 : Nat) ^ 48 = 281474976710656 := by norm_num
  rw [h48] at h
  have hbio := biomeOfSeed_congr _ _ h
  refine ⟨by rw [getBiomeAt_fst, getBiomeAt_fst, hbio], ?_⟩
  have hstable := ensureSession_idem st seed_str version
  have hstable1 := ensureSession_idem st1 seed_str1 version1
  obtain ⟨acc, acc1, h1, h2, hq1, hq2, hq3⟩ := search_rel fuel seed_str version seed_str1 version1
    centerX centerZ radius (structureTypeOf type_str) (structureTypeOf type_str)
    (chunkBounds centerX centerZ radius)
    (fun sa ra sb rb => sa = ensureSession st seed_str version ∧
      sb = ensureSession st1 seed_str1 version1 ∧ ra = rb)
    (fun _ ra rb => ra = rb)
    (fun sa ra sb rb chunkX chunkZ hQ => by
      rw [hQ.1, hQ.2.1]
      have := chunk_seed_congr _ _ (chunkX * 341873128712 + chunkZ * 132897987541) h
      rw [← add_assoc, ← add_assoc] at this
      exact this)
    (fun chunkX chunkZ t a b ht1 ht2 hQ hP => by
      obtain ⟨ha, hb, hr⟩ := hQ
      have hsa : ensureSession a.st seed_str version = a.st := by rw [ha]; exact hstable
      have hsb : ensureSession b.st seed_str1 version1 = b.st := by rw [hb]; exact hstable1
      refine ⟨_, _, checkKind_normal fuel seed_str version centerX centerZ radius _
        chunkX chunkZ a t hsa, checkKind_normal fuel seed_str1 version1 centerX centerZ radius _
        chunkX chunkZ b t hsb, ⟨ha, hb, ?_⟩, ?_⟩
      · show a.result ++ _ = b.result ++ _
        rw [hr, ha, hb, hbio, hP]
      · show (kindStep _ _ _ _ _ _ _ _ _).1 = (kindStep _ _ _ _ _ _ _ _ _).1
        rw [ha, hb, hbio, hP])
    (ensureSession st seed_str version) (ensureSession st1 seed_str1 version1) ⟨rfl, rfl, rfl⟩
  refine ⟨acc.2, ensureSession st seed_str version, ensureSession st1 seed_str1 version1, ?_, ?_⟩
  · unfold getStructuresNear
    simp only []
    rw [h1, ← hq1]
    rfl
  · unfold getStructuresNear
    simp only []
    rw [h2, ← hq2, hq3]
    rfl

/-- Witness of claim C19 at the session seeds 12345 and `12345 + 2^48`. -/
theorem low_48_bits_of_seed_witness :
    (ensureSession ⟨12345, cstr "1.20"⟩ (cstr "12345") (cstr "1.20")).g_seed % 2 ^ 48
      = (ensureSession ⟨281474976723001, cstr "1.20"⟩ (cstr "12345") (cstr "1.20")).g_seed
          % 2 ^ 48 ∧
    (getBiomeAt ⟨12345, cstr "1.20"⟩ (cstr "12345") 7 (-3) (cstr "1.20")).1
      = (getBiomeAt ⟨281474976723001, cstr "1.20"⟩ (cstr "12345") 7 (-3) (cstr "1.20")).1 ∧
    ∃ res s s1,
      getStructuresNear (0 + 1) ⟨12345, cstr "1.20"⟩ (cstr "12345") 0 0 (cstr "village") 160
        (cstr "1.20") = some (res, s) ∧
      getStructuresNear (0 + 1) ⟨281474976723001, cstr "1.20"⟩ (cstr "12345") 0 0
        (cstr "village") 160 (cstr "1.20") = some (res, s1) :=
  ⟨by decide, low_48_bits_of_seed 0 ⟨12345, cstr "1.20"⟩ ⟨281474976723001, cstr "1.20"⟩
    (cstr "12345") (cstr "12345") (cstr "1.20") (cstr "1.20") 0 0 (cstr "village") 160 7 (-3)
    (by decide)⟩

/-! ## The search with no filter -/

theorem kindStep_unfiltered (biome : Int → Int → Int) (centerX centerZ radius : Int)
    (chunkX chunkZ : Int) (rand : JavaRandom) (type : Int) :
    kindStep biome centerX centerZ radius (-1) chunkX chunkZ rand type
      = kindCheck biome centerX centerZ radius chunkX chunkZ rand type := by
  have h1 : ¬ ((-1 : Int) ≠ -1 ∧ type ≠ -1) := fun hc => hc.1 rfl
  unfold kindStep kindCheck
  rw [if_neg h1]

theorem intRange_kinds : intRange 0 9 = allKinds := by decide

theorem checkKindsInOrder_nil (check : JavaRandom → Int → JavaRandom × List Structure)
    (rand : JavaRandom) : checkKindsInOrder check [] rand = [] := rfl

theorem checkKindsInOrder_cons (check : JavaRandom → Int → JavaRandom × List Structure)
    (type : Int) (rest : List Int) (rand : JavaRandom) :
    checkKindsInOrder check (type :: rest) rand
      = (check rand type).2 ++ checkKindsInOrder check rest (check rand type).1 := rfl

theorem checkKind_all_kinds (fuel : Nat) (seed_str version : CStr)
    (centerX centerZ radius : Int) (chunkX chunkZ : Int) (st : Session)
    (hst : ensureSession st seed_str version = st) :
    ∀ (kinds : List Int) (rand : JavaRandom) (res : List Structure),
    ∃ rand1, kinds.foldlM
        (checkKind (fuel + 1) seed_str version centerX centerZ radius (-1) chunkX chunkZ)
        (SearchState.mk st rand res)
      = some (SearchState.mk st rand1 (res ++ checkKindsInOrder
          (kindCheck (biomeOfSeed st.g_seed) centerX centerZ radius chunkX chunkZ)
          kinds rand)) := by
  intro kinds
  induction kinds with
  | nil =>
    intro rand res
    refine ⟨rand, ?_⟩
    rw [List.foldlM_nil, checkKindsInOrder_nil, List.append_nil]
    exact Eq.refl _
  | cons type rest ih =>
    intro rand res
    have hn : checkKind (fuel + 1) seed_str version centerX centerZ radius (-1) chunkX chunkZ
        (SearchState.mk st rand res) type
        = some (SearchState.mk st
          (kindStep (biomeOfSeed st.g_seed) centerX centerZ radius (-1) chunkX chunkZ rand type).1
          (res ++ (kindStep (biomeOfSeed st.g_seed) centerX centerZ radius (-1) chunkX chunkZ
            rand type).2)) :=
      checkKind_normal fuel seed_str version centerX centerZ radius (-1)
        chunkX chunkZ (SearchState.mk st rand res) type hst
    rw [kindStep_unfiltered] at hn
    obtain ⟨rand1, hrand⟩ := ih
      (kindCheck (biomeOfSeed st.g_seed) centerX centerZ radius chunkX chunkZ rand type).1
      (res ++ (kindCheck (biomeOfSeed st.g_seed) centerX centerZ radius chunkX chunkZ
        rand type).2)
    refine ⟨rand1, ?_⟩
    rewrite [List.foldlM_cons, hn, Option.bind_eq_bind, Option.some_bind, hrand,
      checkKindsInOrder_cons, List.append_assoc]
    exact Eq.refl _

theorem scanChunk_all_kinds (fuel : Nat) (seed_str version : CStr)
    (centerX centerZ radius : Int) (st1 : Session)
    (hstable : ensureSession st1 seed_str version = st1)
    (chunkZ : Int) (acc : Session × List Structure) (chunkX : Int) (hacc : acc.1 = st1) :
    scanChunk (fuel + 1) seed_str version centerX centerZ radius (-1) chunkZ acc chunkX
      = some (st1, acc.2 ++ checkKindsInOrder
          (kindCheck (biomeOfSeed st1.g_seed) centerX centerZ radius chunkX chunkZ) allKinds
          (javarand_init (wrapU64 ((st1.g_seed : Int) + chunkX * 341873128712
            + chunkZ * 132897987541)))) := by
  obtain ⟨rand, hrand⟩ := checkKind_all_kinds fuel seed_str version centerX centerZ radius
    chunkX chunkZ st1 hstable allKinds
    (javarand_init (wrapU64 ((st1.g_seed : Int) + chunkX * 341873128712
      + chunkZ * 132897987541))) acc.2
  unfold scanChunk
  show Option.map _ (List.foldlM _ _ _) = _
  rewrite [intRange_kinds, hacc, hrand, Option.map_some']
  exact Eq.refl _

/-- A loop whose every iteration appends records that depend on the loop
variable alone writes the concatenation of these records. -/
theorem foldlM_append_flatMap {α : Type}
    (step : Session × List Structure → α → Option (Session × List Structure))
    (st1 : Session) (F : α → List Structure)
    (h : ∀ acc x, acc.1 = st1 → step acc x = some (st1, acc.2 ++ F x)) :
    ∀ (l : List α) (acc : Session × List Structure), acc.1 = st1 →
      l.foldlM step acc = some (st1, acc.2 ++ l.flatMap F) := by
  intro l
  induction l with
  | nil =>
    intro acc hacc
    rewrite [List.foldlM_nil, List.flatMap_nil, List.append_nil, ← hacc]
    exact Eq.refl _
  | cons x rest ih =>
    intro acc hacc
    rewrite [List.foldlM_cons, h acc x hacc, Option.bind_eq_bind, Option.some_bind,
      ih (st1, acc.2 ++ F x) (Eq.refl _), List.flatMap_cons, List.append_assoc]
    exact Eq.refl _

theorem getStructuresNear_all_kinds (fuel : Nat) (st : Session) (seed_str : CStr)
    (centerX centerZ : Int) (type_str : CStr) (radius : Int) (version : CStr)
    (h : structureTypeOf type_str = -1) :
    getStructuresNear (fuel + 1) st seed_str centerX centerZ type_str radius version
      = some (searchAllKinds (ensureSession st seed_str version).g_seed centerX centerZ radius,
          ensureSession st seed_str version) := by
  have hstable := ensureSession_idem st seed_str version
  have hrow : ∀ (acc : Session × List Structure) (chunkZ : Int),
      acc.1 = ensureSession st seed_str version →
      scanRow (fuel + 1) seed_str version centerX centerZ radius (-1)
          (chunkBounds centerX centerZ radius).1 (chunkBounds centerX centerZ radius).2.2.1
          acc chunkZ
        = some (ensureSession st seed_str version, acc.2 ++
            (intRange (chunkBounds centerX centerZ radius).1
              (chunkBounds centerX centerZ radius).2.2.1).flatMap fun chunkX =>
            checkKindsInOrder (kindCheck (biomeOfSeed (ensureSession st seed_str version).g_seed)
              centerX centerZ radius chunkX chunkZ) allKinds
              (javarand_init (wrapU64 (((ensureSession st seed_str version).g_seed : Int)
                + chunkX * 341873128712 + chunkZ * 132897987541)))) := by
    intro acc chunkZ hacc
    unfold scanRow
    exact foldlM_append_flatMap _ _ _
      (fun a x ha => scanChunk_all_kinds fuel seed_str version centerX centerZ radius _ hstable
        chunkZ a x ha) _ acc hacc
  unfold getStructuresNear
  show Option.map _ (List.foldlM _ _ _) = _
  rewrite [h, foldlM_append_flatMap _ _ _ hrow _ _ (Eq.refl _), Option.map_some',
    List.nil_append]
  exact Eq.refl _

/-- Claim C14: a filter text that is none of the ten kind names selects no kind
(`structure_type` stays -1, so no kind is skipped in any chunk); the search
returns, without error, the records obtained by checking all ten kinds in index
order in every chunk of the range, and two such texts give the same result. -/
theorem getStructuresNear_unknown_filter (fuel : Nat) (st : Session) (seed_str : CStr)
    (centerX centerZ : Int) (type_str type_str1 : CStr) (radius : Int) (version : CStr)
    (h : ∀ k : Fin 10, type_str ≠ cstr (kindName k))
    (h1 : ∀ k : Fin 10, type_str1 ≠ cstr (kindName k)) :
    structureTypeOf type_str = -1 ∧
    (∀ type : Int, ¬ (structureTypeOf type_str ≠ -1 ∧ type ≠ structureTypeOf type_str)) ∧
    getStructuresNear (fuel + 1) st seed_str centerX centerZ type_str radius version
      = some (searchAllKinds (ensureSession st seed_str version).g_seed centerX centerZ radius,
          ensureSession st seed_str version) ∧
    getStructuresNear (fuel + 1) st seed_str centerX centerZ type_str radius version
      = getStructuresNear (fuel + 1) st seed_str centerX centerZ type_str1 radius version := by
  have hs := structureTypeOf_unknown type_str h
  have hs1 := structureTypeOf_unknown type_str1 h1
  refine ⟨hs, fun type hc => hc.1 hs, ?_, ?_⟩
  · exact getStructuresNear_all_kinds fuel st seed_str centerX centerZ type_str radius version hs
  · rw [getStructuresNear_all_kinds fuel st seed_str centerX centerZ type_str radius version hs,
      getStructuresNear_all_kinds fuel st seed_str centerX centerZ type_str1 radius version hs1]

/-- Witness of claim C14 at the filter texts "Village" and "all", seed "12345",
centre (0, 0), radius 160. -/
theorem getStructuresNear_unknown_filter_witness :
    (∀ k : Fin 10, cstr "Village" ≠ cstr (kindName k)) ∧
    (∀ k : Fin 10, cstr "all" ≠ cstr (kindName k)) ∧
    structureTypeOf (cstr "Village") = -1 ∧
    (∀ type : Int,
      ¬ (structureTypeOf (cstr "Village") ≠ -1 ∧ type ≠ structureTypeOf (cstr "Village"))) ∧
    getStructuresNear (0 + 1) Session.initial (cstr "12345") 0 0 (cstr "Village") 160 (cstr "1.20")
      = some (searchAllKinds (ensureSession Session.initial (cstr "12345") (cstr "1.20")).g_seed
          0 0 160, ensureSession Session.initial (cstr "12345") (cstr "1.20")) ∧
    getStructuresNear (0 + 1) Session.initial (cstr "12345") 0 0 (cstr "Village") 160 (cstr "1.20")
      = getStructuresNear (0 + 1) Session.initial (cstr "12345") 0 0 (cstr "all") 160
          (cstr "1.20") :=
  ⟨by decide, by decide,
    getStructuresNear_unknown_filter 0 Session.initial (cstr "12345") 0 0 (cstr "Village")
      (cstr "all") 160 (cstr "1.20") (by decide) (by decide)⟩

/-! ## A search whose sum of squares overflows -/

theorem scanChunk_hit (fuel : Nat) (seed_str version : CStr) (centerX centerZ radius T : Int)
    (st1 : Session) (hstable : ensureSession st1 seed_str version = st1)
    (cz0 cx0 : Int) (p : Structure) (hT : 0 ≤ T ∧ T ≤ 9)
    (hhit : p ∈ (kindStep (biomeOfSeed st1.g_seed) centerX centerZ radius T cx0 cz0
      (javarand_init (wrapU64 ((st1.g_seed : Int) + cx0 * 341873128712 + cz0 * 132897987541)))
      T).2)
    (cz : Int) (acc : Session × List Structure) (cx : Int) (hacc : acc.1 = st1) :
    ∃ acc1, scanChunk (fuel + 1) seed_str version centerX centerZ radius T cz acc cx = some acc1 ∧
      acc1.1 = st1 ∧ (p ∈ acc.2 → p ∈ acc1.2) ∧ (cz = cz0 → cx = cx0 → p ∈ acc1.2) := by
  obtain ⟨s1, h1, h2, h3, h4⟩ := foldlM_intRange_inv
    (checkKind (fuel + 1) seed_str version centerX centerZ radius T cx cz)
    (fun t s => s.st = st1 ∧ (p ∈ acc.2 → p ∈ s.result) ∧
      (cz = cz0 → cx = cx0 →
        (t ≤ T → s.chunkRand = javarand_init
          (wrapU64 ((st1.g_seed : Int) + cx0 * 341873128712 + cz0 * 132897987541))) ∧
        (T < t → p ∈ s.result)))
    0 9
    ⟨acc.1, javarand_init
      (wrapU64 ((acc.1.g_seed : Int) + cx * 341873128712 + cz * 132897987541)), acc.2⟩
    ⟨hacc, fun h => h, fun hz hx => ⟨fun _ => by rw [hacc, hz, hx], fun h => by omega⟩⟩
    (fun t s ht0 ht9 hI => by
      obtain ⟨hs, hmono, hspec⟩ := hI
      have hst : ensureSession s.st seed_str version = s.st := by rw [hs]; exact hstable
      refine ⟨_, checkKind_normal fuel seed_str version centerX centerZ radius T cx cz s t hst,
        hs, ?_, ?_⟩
      · intro h
        exact List.mem_append_left _ (hmono h)
      · intro hz hx
        obtain ⟨hr, hm⟩ := hspec hz hx
        refine ⟨fun hle => ?_, fun hlt => ?_⟩
        · have hne : T ≠ -1 ∧ t ≠ T := ⟨by omega, by omega⟩
          rw [kindStep_skip _ _ _ _ _ _ _ _ _ hne]
          exact hr (by omega)
        · by_cases hlt1 : T < t
          · exact List.mem_append_left _ (hm hlt1)
          · have ht : t = T := by omega
            apply List.mem_append_right
            rw [hs, hr (by omega), ht, hz, hx]
            exact hhit)
  refine ⟨(s1.st, s1.result), ?_, h2, h3, fun hz hx => (h4 hz hx).2 (by omega)⟩
  unfold scanChunk
  show Option.map _ (List.foldlM _ _ _) = _
  rw [h1]
  rfl

theorem scanRow_hit (fuel : Nat) (seed_str version : CStr) (centerX centerZ radius T : Int)
    (st1 : Session) (hstable : ensureSession st1 seed_str version = st1)
    (cz0 cx0 : Int) (p : Structure) (hT : 0 ≤ T ∧ T ≤ 9)
    (hhit : p ∈ (kindStep (biomeOfSeed st1.g_seed) centerX centerZ radius T cx0 cz0
      (javarand_init (wrapU64 ((st1.g_seed : Int) + cx0 * 341873128712 + cz0 * 132897987541)))
      T).2)
    (startChunkX endChunkX : Int) (hx : startChunkX ≤ cx0 ∧ cx0 ≤ endChunkX)
    (acc : Session × List Structure) (cz : Int) (hacc : acc.1 = st1) :
    ∃ acc1, scanRow (fuel + 1) seed_str version centerX centerZ radius T startChunkX endChunkX
        acc cz = some acc1 ∧
      acc1.1 = st1 ∧ (p ∈ acc.2 → p ∈ acc1.2) ∧ (cz = cz0 → p ∈ acc1.2) := by
  obtain ⟨a1, h1, h2, h3, h4⟩ := foldlM_intRange_inv
    (scanChunk (fuel + 1) seed_str version centerX centerZ radius T cz)
    (fun cx a => a.1 = st1 ∧ (p ∈ acc.2 → p ∈ a.2) ∧ (cz = cz0 → cx0 < cx → p ∈ a.2))
    startChunkX endChunkX acc
    ⟨hacc, fun h => h, fun _ h => by omega⟩
    (fun cx a hc0 hc1 hI => by
      obtain ⟨ha, hmono, hspec⟩ := hI
      obtain ⟨a2, e1, e2, e3, e4⟩ := scanChunk_hit fuel seed_str version centerX centerZ radius T
        st1 hstable cz0 cx0 p hT hhit cz a cx ha
      refine ⟨a2, e1, e2, fun h => e3 (hmono h), fun hz hlt => ?_⟩
      by_cases hlt1 : cx0 < cx
      · exact e3 (hspec hz hlt1)
      · exact e4 hz (by omega))
  exact ⟨a1, h1, h2, h3, fun hz => h4 hz (by omega)⟩

/-- A record that the check of the filtered kind writes in a chunk of the
scanned range is in the result of the search. -/
theorem getStructuresNear_hit (fuel : Nat) (st : Session) (seed_str : CStr)
    (centerX centerZ : Int) (type_str : CStr) (radius : Int) (version : CStr)
    (cz0 cx0 : Int) (p : Structure)
    (hT : 0 ≤ structureTypeOf type_str ∧ structureTypeOf type_str ≤ 9)
    (hz : (chunkBounds centerX centerZ radius).2.1 ≤ cz0 ∧
      cz0 ≤ (chunkBounds centerX centerZ radius).2.2.2)
    (hx : (chunkBounds centerX centerZ radius).1 ≤ cx0 ∧
      cx0 ≤ (chunkBounds centerX centerZ radius).2.2.1)
    (hhit : p ∈ (kindStep (biomeOfSeed (ensureSession st seed_str version).g_seed)
      centerX centerZ radius (structureTypeOf type_str) cx0 cz0
      (javarand_init (wrapU64 (((ensureSession st seed_str version).g_seed : Int)
        + cx0 * 341873128712 + cz0 * 132897987541)))
      (structureTypeOf type_str)).2) :
    ∃ res st1, getStructuresNear (fuel + 1) st seed_str centerX centerZ type_str radius version
        = some (res, st1) ∧ p ∈ res := by
  obtain ⟨a1, h1, h2, h3⟩ := foldlM_intRange_inv
    (scanRow (fuel + 1) seed_str version centerX centerZ radius (structureTypeOf type_str)
      (chunkBounds centerX centerZ radius).1 (chunkBounds centerX centerZ radius).2.2.1)
    (fun cz a => a.1 = ensureSession st seed_str version ∧ (cz0 < cz → p ∈ a.2))
    (chunkBounds centerX centerZ radius).2.1 (chunkBounds centerX centerZ radius).2.2.2
    (ensureSession st seed_str version, [])
    ⟨rfl, fun h => by omega⟩
    (fun cz a hc0 hc1 hI => by
      obtain ⟨ha, hspec⟩ := hI
      obtain ⟨a2, e1, e2, e3, e4⟩ := scanRow_hit fuel seed_str version centerX centerZ radius
        (structureTypeOf type_str) (ensureSession st seed_str version)
        (ensureSession_idem st seed_str version) cz0 cx0 p hT hhit _ _ hx a cz ha
      refine ⟨a2, e1, e2, fun hlt => ?_⟩
      by_cases hlt1 : cz0 < cz
      · exact e3 (hspec hlt1)
      · exact e4 (by omega))
  refine ⟨a1.2, a1.1, ?_, h3 (by omega)⟩
  unfold getStructuresNear
  simp only []
  rw [h1]
  rfl

/-- Claim C18 as stated fails at seed "12345", centre (2147483647, 0), filter
"stronghold", radius -1: `centerX - radius` overflows, the chunk range is the
whole row `chunkZ = 0`, and in chunk 2915 the stronghold roll succeeds at the
site (46655, 11), where `dx * dx + dz * dz` wraps to -2118184839; the distance
stored is `INT_MIN`, which passes `distance <= radius`, and the biome (ice
plains) allows a stronghold, so a record is written and the count is not 0. -/
theorem getStructuresNear_negative_radius_hit :
    (-1 : Int) < 0 ∧
    chunkBounds 2147483647 0 (-1) = (-134217728, 0, 134217727, 0) ∧
    wrap32 (wrap32 (46655 - 2147483647) * wrap32 (46655 - 2147483647)
      + wrap32 (11 - 0) * wrap32 (11 - 0)) = -2118184839 ∧
    ∃ res st1, getStructuresNear 1 Session.initial (cstr "12345") 2147483647 0 (cstr "stronghold")
        (-1) (cstr "1.20") = some (res, st1) ∧
      (⟨2, 46655, 11, 14, -2147483648⟩ : Structure) ∈ res ∧ res.length ≠ 0 := by
  refine ⟨by decide, by decide, by decide, ?_⟩
  obtain ⟨res, st1, h1, h2⟩ := getStructuresNear_hit 0 Session.initial (cstr "12345") 2147483647 0
    (cstr "stronghold") (-1) (cstr "1.20") 0 2915 ⟨2, 46655, 11, 14, -2147483648⟩
    (by decide) (by decide) (by decide) (by decide!)
  exact ⟨res, st1, h1, h2, fun h0 => List.ne_nil_of_mem h2 (List.length_eq_zero.mp h0)⟩

end Cubiomes
